import Mathlib

/-!
Verification of the pdf_engine document pipeline.

This file gives a shallow embedding, in Lean, of the core of the
pdf_engine repository (src/app): the full-text-index chunking
(indexing.py), the editor-liveness check, the version state machine
(promote_draft_to_saved / discard_draft), the LaTeX compiler adapter
(latex.py), the LLM fallback loop (llm.py), and the three background
jobs of tasks.py (process_pdf_task, transform_tex_task,
normalize_original_task).

Python strings are modelled as List Char; database tables as lists of
records; the filesystem as a list of (path, file-identity) pairs where
a fresh identity is allocated on every file creation; wall-clock time
as a rational number of seconds.  External effects (text extraction,
the LLM HTTP call, the LaTeX subprocess) are modelled as oracles that
the theorems quantify over.
-/

set_option linter.unusedVariables false

/-- Python str.strip(): remove leading and trailing whitespace
(used by chunk_text in src/app/indexing.py, line 9, and elsewhere). -/
def pyStrip (s : List Char) : List Char :=
  ((s.dropWhile Char.isWhitespace).reverse.dropWhile Char.isWhitespace).reverse

/-- The while-loop of chunk_text (src/app/indexing.py, lines 13-17),
written with a structural fuel argument so that the kernel can
evaluate it; every iteration consumes at least one character, so any
fuel of at least t.length gives the loop's exact behaviour. -/
def chunkFuel (fuel : Nat) (t : List Char) : List (List Char) :=
  match fuel, t with
  | _, [] => []
  | 0, _ => []
  | fuel + 1, t => t.take 1000 :: chunkFuel fuel (t.drop 1000)

theorem chunkFuel_nil (f : Nat) : chunkFuel f [] = [] := by
  cases f <;> rfl

theorem chunkFuel_congr (f1 : Nat) :
    ∀ (f2 : Nat) (t : List Char), t.length ≤ f1 → t.length ≤ f2 →
      chunkFuel f1 t = chunkFuel f2 t := by
  induction f1 with
  | zero =>
    intro f2 t h1 h2
    have h : t = [] := List.eq_nil_of_length_eq_zero (Nat.le_zero.mp h1)
    subst h
    rw [chunkFuel_nil, chunkFuel_nil]
  | succ f1 ih =>
    intro f2 t h1 h2
    match f2, t with
    | f2, [] => rw [chunkFuel_nil, chunkFuel_nil]
    | 0, c :: cs => simp at h2
    | f2 + 1, c :: cs =>
      show (c :: cs).take 1000 :: chunkFuel f1 ((c :: cs).drop 1000)
          = (c :: cs).take 1000 :: chunkFuel f2 ((c :: cs).drop 1000)
      have hd : ((c :: cs).drop 1000).length ≤ f1 := by
        simp only [List.length_drop, List.length_cons] at h1 ⊢
        omega
      have hd2 : ((c :: cs).drop 1000).length ≤ f2 := by
        simp only [List.length_drop, List.length_cons] at h2 ⊢
        omega
      rw [ih f2 _ hd hd2]

/-- The chunking loop at its natural fuel (the length of the input). -/
def chunkGo (t : List Char) : List (List Char) :=
  chunkFuel t.length t

/-- chunk_text from src/app/indexing.py, lines 8-18: strip the text,
then cut it into contiguous 1000-character windows. -/
def chunk_text (text : List Char) : List (List Char) :=
  chunkGo (pyStrip text)

/-- One row of the chunks_fts virtual table (src/app/db.py, line 52).
chunk_id is stored as str(i) in the code; we keep the index itself. -/
structure ChunkRow where
  doc_id : Nat
  kind : String
  chunk_id : Nat
  content : List Char
deriving DecidableEq

/-- The WHERE clause "doc_id = :doc_id AND kind = :kind" used by both
fts_rebuild and discard_draft. -/
def chunkMatches (docId : Nat) (kind : String) (c : ChunkRow) : Bool :=
  c.doc_id == docId && c.kind == kind

/-- The DELETE statement of fts_rebuild (src/app/indexing.py, line 21). -/
def fts_delete (chunks : List ChunkRow) (docId : Nat) (kind : String) : List ChunkRow :=
  chunks.filter (fun c => !chunkMatches docId kind c)

/-- fts_rebuild from src/app/indexing.py, lines 20-28: delete all rows
for (doc_id, kind), then insert one row per chunk of chunk_text, in
order, numbered from 0. -/
def fts_rebuild (chunks : List ChunkRow) (docId : Nat) (kind : String) (text : List Char) :
    List ChunkRow :=
  fts_delete chunks docId kind ++
    (chunk_text text).enum.map (fun p => ⟨docId, kind, p.1, p.2⟩)

theorem chunkGo_nil : chunkGo [] = [] := rfl

theorem chunkGo_cons (t : List Char) (h : t ≠ []) :
    chunkGo t = t.take 1000 :: chunkGo (t.drop 1000) := by
  match t with
  | [] => exact absurd rfl h
  | c :: cs =>
    have h1 : chunkGo (c :: cs)
        = (c :: cs).take 1000 :: chunkFuel cs.length ((c :: cs).drop 1000) := rfl
    rw [h1, chunkGo]
    congr 1
    apply chunkFuel_congr
    · simp only [List.length_drop, List.length_cons]
      omega
    · exact le_rfl

theorem chunkGo_join (t : List Char) : (chunkGo t).flatten = t := by
  have H : ∀ n (t : List Char), t.length ≤ n → (chunkGo t).flatten = t := by
    intro n
    induction n with
    | zero =>
      intro t ht
      have h : t = [] := List.eq_nil_of_length_eq_zero (Nat.le_zero.mp ht)
      subst h
      simp [chunkGo_nil]
    | succ n ih =>
      intro t ht
      by_cases h : t = []
      · subst h; simp [chunkGo_nil]
      · rw [chunkGo_cons t h]
        have hlen : (t.drop 1000).length ≤ n := by
          simp only [List.length_drop]
          have : 0 < t.length := List.length_pos.mpr h
          omega
        simp [List.flatten, ih (t.drop 1000) hlen]
  exact H t.length t le_rfl

theorem chunkGo_length (t : List Char) : (chunkGo t).length = (t.length + 999) / 1000 := by
  have H : ∀ n (t : List Char), t.length ≤ n → (chunkGo t).length = (t.length + 999) / 1000 := by
    intro n
    induction n with
    | zero =>
      intro t ht
      have h : t = [] := List.eq_nil_of_length_eq_zero (Nat.le_zero.mp ht)
      subst h
      simp [chunkGo_nil]
    | succ n ih =>
      intro t ht
      by_cases h : t = []
      · subst h; simp [chunkGo_nil]
      · rw [chunkGo_cons t h]
        have hpos : 0 < t.length := List.length_pos.mpr h
        have hlen : (t.drop 1000).length ≤ n := by
          simp only [List.length_drop]; omega
        rw [List.length_cons, ih (t.drop 1000) hlen, List.length_drop]
        by_cases hle : t.length ≤ 1000
        · have h1 : t.length - 1000 = 0 := by omega
          have h2 : (t.length + 999) / 1000 = 1 := by
            apply Nat.div_eq_of_lt_le <;> omega
          rw [h1, h2]
        · have h1 : t.length + 999 = (t.length - 1000 + 999) + 1 * 1000 := by omega
          rw [h1, Nat.add_mul_div_right _ _ (by omega : (0:ℕ) < 1000)]
  exact H t.length t le_rfl

theorem chunkGo_sizes (t : List Char) :
    ∀ c ∈ chunkGo t, 0 < c.length ∧ c.length ≤ 1000 := by
  have H : ∀ n (t : List Char), t.length ≤ n →
      ∀ c ∈ chunkGo t, 0 < c.length ∧ c.length ≤ 1000 := by
    intro n
    induction n with
    | zero =>
      intro t ht c hc
      have h : t = [] := List.eq_nil_of_length_eq_zero (Nat.le_zero.mp ht)
      subst h
      simp [chunkGo_nil] at hc
    | succ n ih =>
      intro t ht c hc
      by_cases h : t = []
      · subst h; simp [chunkGo_nil] at hc
      · rw [chunkGo_cons t h] at hc
        have hpos : 0 < t.length := List.length_pos.mpr h
        rcases List.mem_cons.mp hc with hc | hc
        · subst hc
          constructor
          · simp only [List.length_take]
            omega
          · simp only [List.length_take]
            omega
        · have hlen : (t.drop 1000).length ≤ n := by
            simp only [List.length_drop]; omega
          exact ih (t.drop 1000) hlen c hc
  exact H t.length t le_rfl

theorem chunkGo_ne_nil (t : List Char) (h : t ≠ []) : chunkGo t ≠ [] := by
  rw [chunkGo_cons t h]
  simp

theorem chunkGo_dropLast (t : List Char) :
    ∀ c ∈ (chunkGo t).dropLast, c.length = 1000 := by
  have H : ∀ n (t : List Char), t.length ≤ n →
      ∀ c ∈ (chunkGo t).dropLast, c.length = 1000 := by
    intro n
    induction n with
    | zero =>
      intro t ht c hc
      have h : t = [] := List.eq_nil_of_length_eq_zero (Nat.le_zero.mp ht)
      subst h
      simp [chunkGo_nil] at hc
    | succ n ih =>
      intro t ht c hc
      by_cases h : t = []
      · subst h; simp [chunkGo_nil] at hc
      · rw [chunkGo_cons t h] at hc
        have hpos : 0 < t.length := List.length_pos.mpr h
        by_cases hrest : t.drop 1000 = []
        · rw [hrest, chunkGo_nil] at hc
          simp at hc
        · rw [List.dropLast_cons_of_ne_nil (chunkGo_ne_nil _ hrest)] at hc
          have hgt : 1000 < t.length := by
            by_contra hle
            exact hrest (List.drop_eq_nil_of_le (by omega))
          rcases List.mem_cons.mp hc with hc | hc
          · subst hc
            simp only [List.length_take]
            omega
          · have hlen : (t.drop 1000).length ≤ n := by
              simp only [List.length_drop]; omega
            exact ih (t.drop 1000) hlen c hc
  exact H t.length t le_rfl

theorem fts_rebuild_matching (chunks : List ChunkRow) (docId : Nat) (kind : String)
    (text : List Char) :
    (fts_rebuild chunks docId kind text).filter (fun c => chunkMatches docId kind c) =
      (chunk_text text).enum.map (fun p => ⟨docId, kind, p.1, p.2⟩) := by
  rw [fts_rebuild, List.filter_append]
  have h1 : (fts_delete chunks docId kind).filter (fun c => chunkMatches docId kind c) = [] := by
    rw [List.filter_eq_nil_iff]
    intro a ha
    have := (List.mem_filter.mp ha).2
    simp at this
    simp [this]
  have h2 : ((chunk_text text).enum.map
      (fun p => (⟨docId, kind, p.1, p.2⟩ : ChunkRow))).filter
        (fun c => chunkMatches docId kind c) =
      (chunk_text text).enum.map (fun p => ⟨docId, kind, p.1, p.2⟩) := by
    rw [List.filter_eq_self]
    intro a ha
    rcases List.mem_map.mp ha with ⟨p, _, hp⟩
    subst hp
    simp [chunkMatches]
  rw [h1, h2, List.nil_append]

theorem fts_rebuild_nonmatching (chunks : List ChunkRow) (docId : Nat) (kind : String)
    (text : List Char) :
    (fts_rebuild chunks docId kind text).filter (fun c => !chunkMatches docId kind c) =
      fts_delete chunks docId kind := by
  rw [fts_rebuild, List.filter_append]
  have h1 : (fts_delete chunks docId kind).filter (fun c => !chunkMatches docId kind c) =
      fts_delete chunks docId kind := by
    rw [List.filter_eq_self]
    intro a ha
    exact (List.mem_filter.mp ha).2
  have h2 : ((chunk_text text).enum.map
      (fun p => (⟨docId, kind, p.1, p.2⟩ : ChunkRow))).filter
        (fun c => !chunkMatches docId kind c) = [] := by
    rw [List.filter_eq_nil_iff]
    intro a ha
    rcases List.mem_map.mp ha with ⟨p, _, hp⟩
    subst hp
    simp [chunkMatches]
  rw [h1, h2, List.append_nil]

/-- C4 (amended): chunk_text operates on the stripped text, so the
rebuild deletes all (doc, kind) rows and then inserts exactly
ceil(L'/1000) chunks where L' is the length of the stripped text; each
chunk except possibly the last has exactly 1000 characters, every
chunk is non-empty with at most 1000 characters, and the concatenation
of the chunks equals the stripped text (not the original text). -/
theorem transformClaim4 (chunks : List ChunkRow) (docId : Nat) (kind : String)
    (text : List Char) :
    (chunk_text text).length = ((pyStrip text).length + 999) / 1000 ∧
    (chunk_text text).flatten = pyStrip text ∧
    (∀ c ∈ (chunk_text text).dropLast, c.length = 1000) ∧
    (∀ c ∈ chunk_text text, 0 < c.length ∧ c.length ≤ 1000) ∧
    (fts_rebuild chunks docId kind text).filter (fun c => chunkMatches docId kind c) =
      (chunk_text text).enum.map (fun p => ⟨docId, kind, p.1, p.2⟩) ∧
    (fts_rebuild chunks docId kind text).filter (fun c => !chunkMatches docId kind c) =
      fts_delete chunks docId kind := by
  exact ⟨chunkGo_length _, chunkGo_join _, chunkGo_dropLast _, chunkGo_sizes _,
    fts_rebuild_matching chunks docId kind text, fts_rebuild_nonmatching chunks docId kind text⟩

/-- C4 counterexample: for the one-character text consisting of a
single space (length L = 1), chunk_text produces zero chunks, not
ceil(1/1000) = 1, and their concatenation is empty, not the original
text: the claim as stated fails because chunk_text strips the text. -/
theorem transformClaim4_counterexample :
    ¬ ((chunk_text [' ']).length = (([' '] : List Char).length + 999) / 1000 ∧
       (chunk_text [' ']).flatten = [' ']) := by
  decide

/-- Witness for C4: the amended statement evaluated on a concrete
table and text. -/
theorem transformClaim4_witness :
    (chunk_text ['a']).length = ((pyStrip ['a']).length + 999) / 1000 ∧
    (chunk_text ['a']).flatten = pyStrip ['a'] ∧
    (∀ c ∈ (chunk_text ['a']).dropLast, c.length = 1000) ∧
    (∀ c ∈ chunk_text ['a'], 0 < c.length ∧ c.length ≤ 1000) ∧
    (fts_rebuild [⟨1, "draft", 0, ['x']⟩] 1 "draft" ['a']).filter
        (fun c => chunkMatches 1 "draft" c) =
      (chunk_text ['a']).enum.map (fun p => ⟨1, "draft", p.1, p.2⟩) ∧
    (fts_rebuild [⟨1, "draft", 0, ['x']⟩] 1 "draft" ['a']).filter
        (fun c => !chunkMatches 1 "draft" c) =
      fts_delete [⟨1, "draft", 0, ['x']⟩] 1 "draft" :=
  transformClaim4 [⟨1, "draft", 0, ['x']⟩] 1 "draft" ['a']

/-- A Document row (src/app/models.py, lines 18-41), restricted to the
fields the pipeline reads or writes.  Timestamps are rational seconds. -/
structure DocR where
  id : Nat
  status : String
  last_error : Option (List Char)
  extracted_text : Option (List Char)
  editor_open : Bool
  editor_heartbeat_at : Option ℚ
  updated_at : ℚ
deriving DecidableEq

/-- A Version row (src/app/models.py, lines 43-59). -/
structure VersionR where
  id : Nat
  doc_id : Nat
  kind : String
  tex_source : List Char
  pdf_path : String
  plain_text : List Char
  created_at : ℚ
  updated_at : ℚ
deriving DecidableEq

/-- A file on disk: its path plus a distinct identity allocated when
the file is created, so that deleting a file and later writing a new
file at the same path are distinguishable. -/
structure FileRow where
  path : String
  fid : Nat
deriving DecidableEq

/-- The shared mutable state the jobs act on: the documents and
versions tables, the chunks_fts index, and the generated-file
directory.  nextVid / nextFid supply fresh row ids / file identities. -/
structure St where
  docs : List DocR
  versions : List VersionR
  chunks : List ChunkRow
  files : List FileRow
  nextVid : Nat
  nextFid : Nat
deriving DecidableEq

/-- s.get(Document, doc_id). -/
def getDoc (st : St) (docId : Nat) : Option DocR :=
  st.docs.find? (fun d => d.id == docId)

/-- Update the document row with the given id in place. -/
def setDoc (st : St) (docId : Nat) (f : DocR → DocR) : St :=
  { st with docs := st.docs.map (fun d => if d.id == docId then f d else d) }

/-- The query filter Version.doc_id == doc_id, Version.kind == kind
followed by .first(). -/
def versionMatches (docId : Nat) (kind : String) (v : VersionR) : Bool :=
  v.doc_id == docId && v.kind == kind

def findVersion (st : St) (docId : Nat) (kind : String) : Option VersionR :=
  st.versions.find? (versionMatches docId kind)

/-- The _generated_pdf_path helper (src/app/tasks.py, lines 30-32). -/
def genPath (docId : Nat) (kind : String) : String :=
  "generated/doc_" ++ toString docId ++ "_" ++ kind ++ ".pdf"

/-- os.path.exists for the generated-file directory. -/
def pathExists (st : St) (p : String) : Bool :=
  st.files.any (fun f => f.path == p)

/-- os.remove by path (also covers the guarded best-effort deletes:
removing an absent path is a no-op, and failures are swallowed). -/
def removePath (st : St) (p : String) : St :=
  { st with files := st.files.filter (fun f => !(f.path == p)) }

/-- Creating (or overwriting) the file at path p, with a fresh
identity: this models shutil.copyfile destinations and compiler
output artifacts. -/
def writeFile (st : St) (p : String) : St :=
  { st with
    files := ⟨p, st.nextFid⟩ :: st.files.filter (fun f => !(f.path == p)),
    nextFid := st.nextFid + 1 }

/-- The _editor_active check (src/app/tasks.py, lines 21-27): the
editor flag must be set, a heartbeat must exist, and its age must be
strictly below 120 seconds. -/
def editorActive (now : ℚ) (d : DocR) : Bool :=
  if !d.editor_open then false
  else
    match d.editor_heartbeat_at with
    | none => false
    | some hb => decide (now - hb < 120)

/-- The in-place relabeling "draft.kind = \x22saved\x22" of
promote_draft_to_saved (src/app/tasks.py, lines 343-345), applied to
the row whose id is the draft row's id. -/
def relabelDraft (now : ℚ) (savedPdf : String) (draftId : Nat) (v : VersionR) : VersionR :=
  if v.id == draftId then { v with kind := "saved", pdf_path := savedPdf, updated_at := now }
  else v

/-- promote_draft_to_saved (src/app/tasks.py, lines 319-358): evict
any prior saved row and its artifact, copy the draft artifact to the
saved artifact path, relabel the draft row in place, remove the
generated draft artifact, rebuild the saved search index, and mark the
document ready. -/
def promote_draft_to_saved (now : ℚ) (docId : Nat) (st : St) : St :=
  match getDoc st docId with
  | none => st
  | some _ =>
    match findVersion st docId "draft" with
    | none => st
    | some draft =>
      let st1 :=
        match findVersion st docId "saved" with
        | some old =>
          let stA := removePath st old.pdf_path
          { stA with versions := stA.versions.filter (fun v => !(v.id == old.id)) }
        | none => st
      let savedPdf := genPath docId "saved"
      let st2 := if pathExists st1 draft.pdf_path then writeFile st1 savedPdf else st1
      let st3 := { st2 with
        versions := st2.versions.map (relabelDraft now savedPdf draft.id) }
      let st4 := removePath st3 (genPath docId "draft")
      let st5 := { st4 with chunks := fts_rebuild st4.chunks docId "saved" draft.plain_text }
      setDoc st5 docId (fun d =>
        { d with status := "ready", updated_at := now, last_error := none })

/-- discard_draft (src/app/tasks.py, lines 360-376): delete the draft
row and its artifact if present, then unconditionally remove the
generated draft pdf and every draft-kind row of chunks_fts. -/
def discard_draft (docId : Nat) (st : St) : St :=
  match getDoc st docId with
  | none => st
  | some _ =>
    let st1 :=
      match findVersion st docId "draft" with
      | some d =>
        let stA := removePath st d.pdf_path
        { stA with versions := stA.versions.filter (fun v => !(v.id == d.id)) }
      | none => st
    let st2 := removePath st1 (genPath docId "draft")
    { st2 with chunks := fts_delete st2.chunks docId "draft" }

/-- Database invariant: the UniqueConstraint("doc_id", "kind") of the
versions table (src/app/models.py, line 45). -/
def kindUnique (vs : List VersionR) : Prop :=
  ∀ a ∈ vs, ∀ b ∈ vs, a.doc_id = b.doc_id → a.kind = b.kind → a = b

instance (vs : List VersionR) : Decidable (kindUnique vs) := by
  unfold kindUnique
  infer_instance

/-- Database invariant: primary-key uniqueness of version row ids. -/
def idsNodup (vs : List VersionR) : Prop :=
  (vs.map (fun v => v.id)).Nodup

instance (vs : List VersionR) : Decidable (idsNodup vs) := by
  unfold idsNodup
  infer_instance

/-- Filesystem invariant: every allocated file identity is below the
fresh-identity counter. -/
def fidsBelow (st : St) : Prop :=
  ∀ f ∈ st.files, f.fid < st.nextFid

instance (st : St) : Decidable (fidsBelow st) := by
  unfold fidsBelow
  infer_instance

/-- C7: a document's editing session is active exactly when the
editor_open flag is set, a heartbeat timestamp is present, and the
heartbeat age is strictly below 120 seconds; in particular an age of
119 seconds is active and an age of 121 seconds is inactive. -/
theorem transformClaim7 (now : ℚ) (d : DocR) :
    (editorActive now d = true ↔
      d.editor_open = true ∧ ∃ hb, d.editor_heartbeat_at = some hb ∧ now - hb < 120) ∧
    (∀ hb, d.editor_open = true → d.editor_heartbeat_at = some hb → now - hb = 119 →
      editorActive now d = true) ∧
    (∀ hb, d.editor_heartbeat_at = some hb → now - hb = 121 →
      editorActive now d = false) := by
  refine ⟨?_, ?_, ?_⟩
  · unfold editorActive
    cases hop : d.editor_open
    · simp [hop]
    · cases hhb : d.editor_heartbeat_at with
      | none => simp [hhb]
      | some hb => simp [hhb]
  · intro hb hop hhb hage
    unfold editorActive
    simp only [hop, hhb, Bool.not_true, Bool.false_eq_true, if_false, decide_eq_true_eq]
    rw [hage]
    norm_num
  · intro hb hhb hage
    unfold editorActive
    cases hop : d.editor_open
    · simp [hop]
    · simp only [hop, hhb, Bool.not_true, Bool.false_eq_true, if_false, decide_eq_false_iff_not]
      rw [hage]
      norm_num

/-- Witness for C7 at a concrete document whose heartbeat is 119
seconds old. -/
theorem transformClaim7_witness :
    (editorActive 119 ⟨1, "ready", none, none, true, some 0, 0⟩ = true ↔
      (⟨1, "ready", none, none, true, some 0, 0⟩ : DocR).editor_open = true ∧
        ∃ hb, (⟨1, "ready", none, none, true, some 0, 0⟩ : DocR).editor_heartbeat_at = some hb ∧
          (119 : ℚ) - hb < 120) ∧
    (∀ hb, (⟨1, "ready", none, none, true, some 0, 0⟩ : DocR).editor_open = true →
      (⟨1, "ready", none, none, true, some 0, 0⟩ : DocR).editor_heartbeat_at = some hb →
      (119 : ℚ) - hb = 119 →
      editorActive 119 ⟨1, "ready", none, none, true, some 0, 0⟩ = true) ∧
    (∀ hb, (⟨1, "ready", none, none, true, some 0, 0⟩ : DocR).editor_heartbeat_at = some hb →
      (119 : ℚ) - hb = 121 →
      editorActive 119 ⟨1, "ready", none, none, true, some 0, 0⟩ = false) :=
  transformClaim7 119 ⟨1, "ready", none, none, true, some 0, 0⟩

theorem filter_self_twice {α : Type} (p : α → Bool) (l : List α) :
    (l.filter p).filter p = l.filter p := by
  rw [List.filter_eq_self]
  intro a ha
  exact (List.mem_filter.mp ha).2

theorem discard_draft_no_doc (st : St) (docId : Nat) (h : getDoc st docId = none) :
    discard_draft docId st = st := by
  unfold discard_draft
  rw [h]

theorem discard_draft_no_draft (st : St) (docId : Nat) (d : DocR)
    (hd : getDoc st docId = some d) (hv : findVersion st docId "draft" = none) :
    discard_draft docId st =
      { st with
        files := st.files.filter (fun f => !(f.path == genPath docId "draft")),
        chunks := fts_delete st.chunks docId "draft" } := by
  unfold discard_draft
  rw [hd]
  show (let st1 := match findVersion st docId "draft" with
          | some dr =>
            let stA := removePath st dr.pdf_path
            { stA with versions := stA.versions.filter (fun v => !(v.id == dr.id)) }
          | none => st
        let st2 := removePath st1 (genPath docId "draft")
        { st2 with chunks := fts_delete st2.chunks docId "draft" }) = _
  rw [hv]
  rfl

theorem discard_draft_with_draft (st : St) (docId : Nat) (d : DocR) (dr : VersionR)
    (hd : getDoc st docId = some d) (hv : findVersion st docId "draft" = some dr) :
    discard_draft docId st =
      { st with
        versions := st.versions.filter (fun v => !(v.id == dr.id)),
        files := (st.files.filter (fun f => !(f.path == dr.pdf_path))).filter
          (fun f => !(f.path == genPath docId "draft")),
        chunks := fts_delete st.chunks docId "draft" } := by
  unfold discard_draft
  rw [hd]
  show (let st1 := match findVersion st docId "draft" with
          | some dr =>
            let stA := removePath st dr.pdf_path
            { stA with versions := stA.versions.filter (fun v => !(v.id == dr.id)) }
          | none => st
        let st2 := removePath st1 (genPath docId "draft")
        { st2 with chunks := fts_delete st2.chunks docId "draft" }) = _
  rw [hv]
  rfl

theorem findVersion_filter_ne (vs : List VersionR) (dr : VersionR) (docId : Nat)
    (hk : kindUnique vs) (hdr : vs.find? (versionMatches docId "draft") = some dr) :
    (vs.filter (fun v => !(v.id == dr.id))).find? (versionMatches docId "draft") = none := by
  rw [List.find?_eq_none]
  intro v hv hm
  have hmem := (List.mem_filter.mp hv).1
  have hne := (List.mem_filter.mp hv).2
  have hdrmem := List.mem_of_find?_eq_some hdr
  have hdrm := List.find?_some hdr
  have h1 : v.doc_id = docId ∧ v.kind = "draft" := by
    simpa [versionMatches] using hm
  have h2 : dr.doc_id = docId ∧ dr.kind = "draft" := by
    simpa [versionMatches] using hdrm
  have heq : v = dr := hk v hmem dr hdrmem (by rw [h1.1, h2.1]) (by rw [h1.2, h2.2])
  rw [heq] at hne
  simp at hne

/-- C9 (amended): when no draft Version row exists, discard_draft
raises no error and leaves the versions table and every document row
unchanged, but it is not a complete no-op: it still deletes every
draft-kind row of the search index for the document and removes the
generated draft artifact path; discard_draft is nevertheless
idempotent. -/
theorem transformClaim9 (st : St) (docId : Nat) (hk : kindUnique st.versions) :
    (∀ d, getDoc st docId = some d → findVersion st docId "draft" = none →
      (discard_draft docId st).versions = st.versions ∧
      (discard_draft docId st).docs = st.docs ∧
      (discard_draft docId st).chunks = fts_delete st.chunks docId "draft" ∧
      (discard_draft docId st).files =
        st.files.filter (fun f => !(f.path == genPath docId "draft"))) ∧
    discard_draft docId (discard_draft docId st) = discard_draft docId st := by
  constructor
  · intro d hd hv
    rw [discard_draft_no_draft st docId d hd hv]
    exact ⟨rfl, rfl, rfl, rfl⟩
  · cases hd : getDoc st docId with
    | none =>
      rw [discard_draft_no_doc st docId hd, discard_draft_no_doc st docId hd]
    | some d =>
      cases hv : findVersion st docId "draft" with
      | none =>
        rw [discard_draft_no_draft st docId d hd hv]
        have hd' : getDoc { st with
            files := st.files.filter (fun f => !(f.path == genPath docId "draft")),
            chunks := fts_delete st.chunks docId "draft" } docId = some d := hd
        have hv' : findVersion { st with
            files := st.files.filter (fun f => !(f.path == genPath docId "draft")),
            chunks := fts_delete st.chunks docId "draft" } docId "draft" = none := hv
        rw [discard_draft_no_draft _ docId d hd' hv']
        have hfile : (st.files.filter (fun f => !(f.path == genPath docId "draft"))).filter
            (fun f => !(f.path == genPath docId "draft")) =
            st.files.filter (fun f => !(f.path == genPath docId "draft")) :=
          filter_self_twice _ _
        have hchunk : fts_delete (fts_delete st.chunks docId "draft") docId "draft" =
            fts_delete st.chunks docId "draft" := filter_self_twice _ _
        congr 1
      | some dr =>
        rw [discard_draft_with_draft st docId d dr hd hv]
        have hd' : getDoc { st with
            versions := st.versions.filter (fun v => !(v.id == dr.id)),
            files := (st.files.filter (fun f => !(f.path == dr.pdf_path))).filter
              (fun f => !(f.path == genPath docId "draft")),
            chunks := fts_delete st.chunks docId "draft" } docId = some d := hd
        have hv' : findVersion { st with
            versions := st.versions.filter (fun v => !(v.id == dr.id)),
            files := (st.files.filter (fun f => !(f.path == dr.pdf_path))).filter
              (fun f => !(f.path == genPath docId "draft")),
            chunks := fts_delete st.chunks docId "draft" } docId "draft" = none :=
          findVersion_filter_ne st.versions dr docId hk hv
        rw [discard_draft_no_draft _ docId d hd' hv']
        have hfile : (((st.files.filter (fun f => !(f.path == dr.pdf_path))).filter
              (fun f => !(f.path == genPath docId "draft")))).filter
                (fun f => !(f.path == genPath docId "draft")) =
            (st.files.filter (fun f => !(f.path == dr.pdf_path))).filter
              (fun f => !(f.path == genPath docId "draft")) :=
          filter_self_twice _ _
        have hchunk : fts_delete (fts_delete st.chunks docId "draft") docId "draft" =
            fts_delete st.chunks docId "draft" := filter_self_twice _ _
        congr 1

/-- C9 counterexample: a state with no draft Version row but with one
leftover draft-kind index row.  discard_draft is not a no-op there: it
deletes the index row, so the claim that state is left unchanged
fails. -/
theorem transformClaim9_counterexample :
    findVersion ⟨[⟨1, "ready", none, none, false, none, 0⟩], [],
      [⟨1, "draft", 0, ['x']⟩], [], 0, 0⟩ 1 "draft" = none ∧
    ¬ (discard_draft 1 ⟨[⟨1, "ready", none, none, false, none, 0⟩], [],
        [⟨1, "draft", 0, ['x']⟩], [], 0, 0⟩ =
      ⟨[⟨1, "ready", none, none, false, none, 0⟩], [],
        [⟨1, "draft", 0, ['x']⟩], [], 0, 0⟩) := by
  decide

/-- Witness for C9: the amended statement at a concrete state with a
document, no draft row, one draft chunk and the generated draft file
on disk. -/
theorem transformClaim9_witness :
    kindUnique (⟨[⟨1, "ready", none, none, false, none, 0⟩], [],
        [⟨1, "draft", 0, ['x']⟩], [⟨genPath 1 "draft", 0⟩], 0, 1⟩ : St).versions ∧
    ((∀ d, getDoc ⟨[⟨1, "ready", none, none, false, none, 0⟩], [],
          [⟨1, "draft", 0, ['x']⟩], [⟨genPath 1 "draft", 0⟩], 0, 1⟩ 1 = some d →
        findVersion ⟨[⟨1, "ready", none, none, false, none, 0⟩], [],
          [⟨1, "draft", 0, ['x']⟩], [⟨genPath 1 "draft", 0⟩], 0, 1⟩ 1 "draft" = none →
        (discard_draft 1 ⟨[⟨1, "ready", none, none, false, none, 0⟩], [],
          [⟨1, "draft", 0, ['x']⟩], [⟨genPath 1 "draft", 0⟩], 0, 1⟩).versions =
          (⟨[⟨1, "ready", none, none, false, none, 0⟩], [],
            [⟨1, "draft", 0, ['x']⟩], [⟨genPath 1 "draft", 0⟩], 0, 1⟩ : St).versions ∧
        (discard_draft 1 ⟨[⟨1, "ready", none, none, false, none, 0⟩], [],
          [⟨1, "draft", 0, ['x']⟩], [⟨genPath 1 "draft", 0⟩], 0, 1⟩).docs =
          (⟨[⟨1, "ready", none, none, false, none, 0⟩], [],
            [⟨1, "draft", 0, ['x']⟩], [⟨genPath 1 "draft", 0⟩], 0, 1⟩ : St).docs ∧
        (discard_draft 1 ⟨[⟨1, "ready", none, none, false, none, 0⟩], [],
          [⟨1, "draft", 0, ['x']⟩], [⟨genPath 1 "draft", 0⟩], 0, 1⟩).chunks =
          fts_delete (⟨[⟨1, "ready", none, none, false, none, 0⟩], [],
            [⟨1, "draft", 0, ['x']⟩], [⟨genPath 1 "draft", 0⟩], 0, 1⟩ : St).chunks 1 "draft" ∧
        (discard_draft 1 ⟨[⟨1, "ready", none, none, false, none, 0⟩], [],
          [⟨1, "draft", 0, ['x']⟩], [⟨genPath 1 "draft", 0⟩], 0, 1⟩).files =
          (⟨[⟨1, "ready", none, none, false, none, 0⟩], [],
            [⟨1, "draft", 0, ['x']⟩], [⟨genPath 1 "draft", 0⟩], 0, 1⟩ : St).files.filter
              (fun f => !(f.path == genPath 1 "draft"))) ∧
      discard_draft 1 (discard_draft 1 ⟨[⟨1, "ready", none, none, false, none, 0⟩], [],
        [⟨1, "draft", 0, ['x']⟩], [⟨genPath 1 "draft", 0⟩], 0, 1⟩) =
        discard_draft 1 ⟨[⟨1, "ready", none, none, false, none, 0⟩], [],
          [⟨1, "draft", 0, ['x']⟩], [⟨genPath 1 "draft", 0⟩], 0, 1⟩) :=
  ⟨by decide, transformClaim9 ⟨[⟨1, "ready", none, none, false, none, 0⟩], [],
    [⟨1, "draft", 0, ['x']⟩], [⟨genPath 1 "draft", 0⟩], 0, 1⟩ 1 (by decide)⟩

theorem relabelDraft_self (now : ℚ) (savedPdf : String) (draft : VersionR) :
    relabelDraft now savedPdf draft.id draft =
      { draft with kind := "saved", pdf_path := savedPdf, updated_at := now } := by
  simp [relabelDraft]

theorem relabelDraft_other (now : ℚ) (savedPdf : String) (draftId : Nat) (v : VersionR)
    (h : ¬ v.id = draftId) :
    relabelDraft now savedPdf draftId v = v := by
  simp [relabelDraft, h]

theorem filter_saved_map_relabel (now : ℚ) (savedPdf : String) (docId : Nat) (draft : VersionR)
    (l : List VersionR)
    (hmem : draft ∈ l)
    (hdm : versionMatches docId "draft" draft = true)
    (huniq : ∀ v ∈ l, v.id = draft.id → v = draft)
    (hnodup : l.Nodup)
    (hnosaved : ∀ v ∈ l, v ≠ draft → versionMatches docId "saved" v = false) :
    (l.map (relabelDraft now savedPdf draft.id)).filter (versionMatches docId "saved") =
      [{ draft with kind := "saved", pdf_path := savedPdf, updated_at := now }] := by
  have hdoc : draft.doc_id = docId := by
    have h := hdm
    simp [versionMatches] at h
    exact h.1
  induction l with
  | nil => simp at hmem
  | cons x xs ih =>
    by_cases hx : x = draft
    · subst hx
      have hnot : x ∉ xs := (List.nodup_cons.mp hnodup).1
      have htail : (xs.map (relabelDraft now savedPdf x.id)).filter
          (versionMatches docId "saved") = [] := by
        rw [List.filter_eq_nil_iff]
        intro a ha
        rcases List.mem_map.mp ha with ⟨w, hw, hwa⟩
        have hwne : w ≠ x := fun h => hnot (h ▸ hw)
        have hwid : ¬ w.id = x.id := fun h =>
          hwne (huniq w (List.mem_cons_of_mem _ hw) h)
        rw [← hwa, relabelDraft_other now savedPdf x.id w hwid]
        have := hnosaved w (List.mem_cons_of_mem _ hw) hwne
        simp [this]
      have hmatch : versionMatches docId "saved"
          { x with kind := "saved", pdf_path := savedPdf, updated_at := now } = true := by
        simp [versionMatches, hdoc]
      rw [List.map_cons, relabelDraft_self now savedPdf x]
      rw [List.filter_cons_of_pos hmatch, htail]
    · have hmem' : draft ∈ xs := by
        rcases List.mem_cons.mp hmem with h | h
        · exact absurd h.symm hx
        · exact h
      have hxid : ¬ x.id = draft.id := fun h =>
        hx (huniq x (List.mem_cons_self x xs) h)
      have hxsaved : versionMatches docId "saved" x = false :=
        hnosaved x (List.mem_cons_self x xs) hx
      rw [List.map_cons, relabelDraft_other now savedPdf draft.id x hxid]
      rw [List.filter_cons_of_neg (by simp [hxsaved])]
      exact ih hmem'
        (fun v hv => huniq v (List.mem_cons_of_mem _ hv))
        (List.nodup_cons.mp hnodup).2
        (fun v hv => hnosaved v (List.mem_cons_of_mem _ hv))

theorem filter_draft_map_relabel (now : ℚ) (savedPdf : String) (docId : Nat) (draft : VersionR)
    (l : List VersionR)
    (huniq : ∀ v ∈ l, v.id = draft.id → v = draft)
    (hnodraft : ∀ v ∈ l, v ≠ draft → versionMatches docId "draft" v = false) :
    (l.map (relabelDraft now savedPdf draft.id)).filter (versionMatches docId "draft") = [] := by
  rw [List.filter_eq_nil_iff]
  intro a ha
  rcases List.mem_map.mp ha with ⟨w, hw, hwa⟩
  by_cases hwd : w = draft
  · subst hwd
    rw [← hwa, relabelDraft_self now savedPdf w]
    simp [versionMatches]
  · have hwid : ¬ w.id = draft.id := fun h => hwd (huniq w hw h)
    rw [← hwa, relabelDraft_other now savedPdf draft.id w hwid]
    have := hnodraft w hw hwd
    simp [this]

theorem promote_versions_no_saved (now : ℚ) (st : St) (docId : Nat) (d : DocR)
    (draft : VersionR)
    (hd : getDoc st docId = some d) (hdr : findVersion st docId "draft" = some draft)
    (hs : findVersion st docId "saved" = none) :
    (promote_draft_to_saved now docId st).versions =
      st.versions.map (relabelDraft now (genPath docId "saved") draft.id) := by
  simp only [promote_draft_to_saved, hd, hdr, hs]
  split
  · simp [writeFile, setDoc, removePath]
  · simp [setDoc, removePath]

theorem promote_versions_with_saved (now : ℚ) (st : St) (docId : Nat) (d : DocR)
    (draft old : VersionR)
    (hd : getDoc st docId = some d) (hdr : findVersion st docId "draft" = some draft)
    (hs : findVersion st docId "saved" = some old) :
    (promote_draft_to_saved now docId st).versions =
      (st.versions.filter (fun v => !(v.id == old.id))).map
        (relabelDraft now (genPath docId "saved") draft.id) := by
  simp only [promote_draft_to_saved, hd, hdr, hs]
  split
  · simp [writeFile, setDoc, removePath]
  · simp [setDoc, removePath]

theorem promote_old_file_gone (now : ℚ) (st : St) (docId : Nat) (d : DocR)
    (draft old : VersionR) (fl : FileRow)
    (hd : getDoc st docId = some d) (hdr : findVersion st docId "draft" = some draft)
    (hs : findVersion st docId "saved" = some old)
    (hbelow : fidsBelow st)
    (hfl : fl ∈ st.files) (hpath : fl.path = old.pdf_path) :
    fl ∉ (promote_draft_to_saved now docId st).files := by
  intro hmem
  simp only [promote_draft_to_saved, hd, hdr, hs, setDoc, removePath] at hmem
  split at hmem
  · simp only [writeFile] at hmem
    have h2 := (List.mem_filter.mp hmem).1
    rcases List.mem_cons.mp h2 with h3 | h3
    · have hfid := hbelow fl hfl
      rw [h3] at hfid
      simp at hfid
    · have h4 := (List.mem_filter.mp h3).1
      have h5 := (List.mem_filter.mp h4).2
      rw [hpath] at h5
      simp at h5
  · have h2 := (List.mem_filter.mp hmem).1
    have h3 := (List.mem_filter.mp h2).2
    rw [hpath] at h3
    simp at h3

theorem promote_filter_draft_nil (st : St) (docId : Nat) (now : ℚ) (d : DocR)
    (draft : VersionR)
    (hk : kindUnique st.versions) (hid : idsNodup st.versions)
    (hd : getDoc st docId = some d) (hdr : findVersion st docId "draft" = some draft) :
    (promote_draft_to_saved now docId st).versions.filter (versionMatches docId "draft") = [] := by
  have hdraftmem : draft ∈ st.versions := List.mem_of_find?_eq_some hdr
  have hdm : versionMatches docId "draft" draft = true := List.find?_some hdr
  have hinj := List.inj_on_of_nodup_map hid
  have huniq : ∀ v ∈ st.versions, v.id = draft.id → v = draft := fun v hv h =>
    hinj hv hdraftmem h
  have hdkind : draft.kind = "draft" := by
    have h := hdm
    simp [versionMatches] at h
    exact h.2
  have hddoc : draft.doc_id = docId := by
    have h := hdm
    simp [versionMatches] at h
    exact h.1
  have hnodraft : ∀ v ∈ st.versions, v ≠ draft → versionMatches docId "draft" v = false := by
    intro v hv hvne
    cases hvm : versionMatches docId "draft" v
    · rfl
    · have hvdoc : v.doc_id = docId := by
        have h := hvm
        simp [versionMatches] at h
        exact h.1
      have hvkind : v.kind = "draft" := by
        have h := hvm
        simp [versionMatches] at h
        exact h.2
      exact absurd (hk v hv draft hdraftmem (hvdoc.trans hddoc.symm)
        (hvkind.trans hdkind.symm)) hvne
  cases hso : findVersion st docId "saved" with
  | none =>
    rw [promote_versions_no_saved now st docId d draft hd hdr hso]
    exact filter_draft_map_relabel now (genPath docId "saved") docId draft st.versions
      huniq hnodraft
  | some old =>
    rw [promote_versions_with_saved now st docId d draft old hd hdr hso]
    exact filter_draft_map_relabel now (genPath docId "saved") docId draft
      (st.versions.filter (fun v => !(v.id == old.id)))
      (fun v hv h => huniq v (List.mem_filter.mp hv).1 h)
      (fun v hv hvne => hnodraft v (List.mem_filter.mp hv).1 hvne)

/-- C2: promoting a draft leaves exactly one saved Version row for the
document and no draft row; the saved row is the former draft row
relabeled in place (same row id, tex source, plain text and creation
time, with only kind, pdf path and update time changed, so it is not a
duplicate); and every disk file that lived at the prior saved
version's artifact path has been removed (the path may be re-populated
by a fresh copy of the draft's artifact, which has a new file
identity). -/
theorem transformClaim2 (st : St) (docId : Nat) (now : ℚ) (d : DocR) (draft : VersionR)
    (hk : kindUnique st.versions) (hid : idsNodup st.versions) (hbelow : fidsBelow st)
    (hd : getDoc st docId = some d) (hdr : findVersion st docId "draft" = some draft) :
    (promote_draft_to_saved now docId st).versions.filter (versionMatches docId "saved") =
      [{ draft with kind := "saved", pdf_path := genPath docId "saved", updated_at := now }] ∧
    (promote_draft_to_saved now docId st).versions.filter (versionMatches docId "draft") = [] ∧
    (∀ old, findVersion st docId "saved" = some old →
      ∀ fl ∈ st.files, fl.path = old.pdf_path →
        fl ∉ (promote_draft_to_saved now docId st).files) := by
  have hdraftmem : draft ∈ st.versions := List.mem_of_find?_eq_some hdr
  have hdm : versionMatches docId "draft" draft = true := List.find?_some hdr
  have hinj := List.inj_on_of_nodup_map hid
  have hnodup : st.versions.Nodup := List.Nodup.of_map _ hid
  have huniq : ∀ v ∈ st.versions, v.id = draft.id → v = draft := fun v hv h =>
    hinj hv hdraftmem h
  have hdkind : draft.kind = "draft" := by
    have h := hdm
    simp [versionMatches] at h
    exact h.2
  have hddoc : draft.doc_id = docId := by
    have h := hdm
    simp [versionMatches] at h
    exact h.1
  refine ⟨?_, ?_, ?_⟩
  · cases hso : findVersion st docId "saved" with
    | none =>
      rw [promote_versions_no_saved now st docId d draft hd hdr hso]
      apply filter_saved_map_relabel now (genPath docId "saved") docId draft st.versions
        hdraftmem hdm huniq hnodup
      intro v hv hne
      cases hvm : versionMatches docId "saved" v
      · rfl
      · exact absurd hvm (List.find?_eq_none.mp hso v hv)
    | some old =>
      have holdmem : old ∈ st.versions := List.mem_of_find?_eq_some hso
      have hom : versionMatches docId "saved" old = true := List.find?_some hso
      have hokind : old.kind = "saved" := by
        have h := hom
        simp [versionMatches] at h
        exact h.2
      have hodoc : old.doc_id = docId := by
        have h := hom
        simp [versionMatches] at h
        exact h.1
      have hne : draft ≠ old := by
        intro h
        rw [h, hokind] at hdkind
        exact absurd hdkind (by decide)
      have hdo : ¬ draft.id = old.id := fun h => hne (hinj hdraftmem holdmem h)
      rw [promote_versions_with_saved now st docId d draft old hd hdr hso]
      apply filter_saved_map_relabel now (genPath docId "saved") docId draft
        (st.versions.filter (fun v => !(v.id == old.id)))
        (List.mem_filter.mpr ⟨hdraftmem, by simp [hdo]⟩) hdm
        (fun v hv h => huniq v (List.mem_filter.mp hv).1 h)
        (hnodup.filter _)
      intro v hv hvne
      cases hvm : versionMatches docId "saved" v
      · rfl
      · have hvmem := (List.mem_filter.mp hv).1
        have hvid := (List.mem_filter.mp hv).2
        have hvdoc : v.doc_id = docId := by
          have h := hvm
          simp [versionMatches] at h
          exact h.1
        have hvkind : v.kind = "saved" := by
          have h := hvm
          simp [versionMatches] at h
          exact h.2
        have hveq : v = old := hk v hvmem old holdmem (hvdoc.trans hodoc.symm)
          (hvkind.trans hokind.symm)
        rw [hveq] at hvid
        simp at hvid
  · exact promote_filter_draft_nil st docId now d draft hk hid hd hdr
  · intro old hso fl hfl hpath
    exact promote_old_file_gone now st docId d draft old fl hd hdr hso hbelow hfl hpath

/-- Example document row used by concrete witnesses. -/
def exDoc2 : DocR := ⟨1, "ready", none, none, false, none, 0⟩

/-- Example draft Version row used by concrete witnesses. -/
def exDraft2 : VersionR := ⟨10, 1, "draft", ['t'], "generated/doc_1_draft.pdf", ['x'], 0, 0⟩

/-- Example prior saved Version row used by concrete witnesses. -/
def exOld2 : VersionR := ⟨11, 1, "saved", ['s'], "generated/doc_1_saved.pdf", ['y'], 0, 0⟩

/-- Example state with one document, a draft row, a prior saved row and
both artifact files on disk. -/
def exSt2 : St :=
  ⟨[exDoc2], [exDraft2, exOld2], [⟨1, "draft", 0, ['x']⟩],
    [⟨"generated/doc_1_saved.pdf", 0⟩, ⟨"generated/doc_1_draft.pdf", 1⟩], 12, 2⟩

/-- Witness for C2 at the concrete state exSt2. -/
theorem transformClaim2_witness :
    kindUnique exSt2.versions ∧ idsNodup exSt2.versions ∧ fidsBelow exSt2 ∧
    getDoc exSt2 1 = some exDoc2 ∧ findVersion exSt2 1 "draft" = some exDraft2 ∧
    ((promote_draft_to_saved 5 1 exSt2).versions.filter (versionMatches 1 "saved") =
      [{ exDraft2 with kind := "saved", pdf_path := genPath 1 "saved", updated_at := 5 }] ∧
    (promote_draft_to_saved 5 1 exSt2).versions.filter (versionMatches 1 "draft") = [] ∧
    (∀ old, findVersion exSt2 1 "saved" = some old →
      ∀ fl ∈ exSt2.files, fl.path = old.pdf_path →
        fl ∉ (promote_draft_to_saved 5 1 exSt2).files)) :=
  ⟨by decide, by decide, by decide, by decide, by decide,
    transformClaim2 exSt2 1 5 exDoc2 exDraft2 (by decide) (by decide) (by decide)
      (by decide) (by decide)⟩

theorem promote_chunks (now : ℚ) (st : St) (docId : Nat) (d : DocR) (draft : VersionR)
    (hd : getDoc st docId = some d) (hdr : findVersion st docId "draft" = some draft) :
    (promote_draft_to_saved now docId st).chunks =
      fts_rebuild st.chunks docId "saved" draft.plain_text := by
  cases hso : findVersion st docId "saved" with
  | none =>
    simp only [promote_draft_to_saved, hd, hdr, hso]
    split <;> simp [writeFile, setDoc, removePath]
  | some old =>
    simp only [promote_draft_to_saved, hd, hdr, hso]
    split <;> simp [writeFile, setDoc, removePath]

theorem promote_docs (now : ℚ) (st : St) (docId : Nat) (d : DocR) (draft : VersionR)
    (hd : getDoc st docId = some d) (hdr : findVersion st docId "draft" = some draft) :
    (promote_draft_to_saved now docId st).docs =
      (setDoc st docId (fun x =>
        { x with status := "ready", updated_at := now, last_error := none })).docs := by
  cases hso : findVersion st docId "saved" with
  | none =>
    simp only [promote_draft_to_saved, hd, hdr, hso]
    split <;> simp [writeFile, setDoc, removePath]
  | some old =>
    simp only [promote_draft_to_saved, hd, hdr, hso]
    split <;> simp [writeFile, setDoc, removePath]

theorem getDoc_setDoc (st : St) (docId : Nat) (f : DocR → DocR) (d : DocR)
    (hd : getDoc st docId = some d) (hpres : ∀ x, (f x).id = x.id) :
    getDoc (setDoc st docId f) docId = some (f d) := by
  unfold getDoc setDoc
  rw [List.find?_map]
  have hcomp : ((fun x : DocR => x.id == docId) ∘
      (fun x => if x.id == docId then f x else x)) = (fun x : DocR => x.id == docId) := by
    funext x
    by_cases hx : x.id = docId
    · simp [hx, hpres]
    · simp [hx]
  rw [hcomp]
  unfold getDoc at hd
  rw [hd]
  have hp := @List.find?_some DocR (fun x => x.id == docId) d st.docs hd
  simp only [] at hp
  simp [hp]
  intro h
  exact absurd (by simpa using hp) h

theorem discard_chunks (st : St) (docId : Nat) (d : DocR)
    (hd : getDoc st docId = some d) :
    (discard_draft docId st).chunks = fts_delete st.chunks docId "draft" := by
  cases hv : findVersion st docId "draft" with
  | none => rw [discard_draft_no_draft st docId d hd hv]
  | some dr => rw [discard_draft_with_draft st docId d dr hd hv]

theorem filter_fts_delete_match (chunks : List ChunkRow) (docId : Nat) (kind : String) :
    (fts_delete chunks docId kind).filter (chunkMatches docId kind) = [] := by
  rw [List.filter_eq_nil_iff]
  intro a ha
  have h := (List.mem_filter.mp ha).2
  simp at h
  simp [h]

theorem filter_filter_of_imp {α : Type} (p q : α → Bool) (l : List α)
    (h : ∀ a, p a = true → q a = true) : (l.filter q).filter p = l.filter p := by
  rw [List.filter_filter]
  apply List.filter_congr
  intro a ha
  cases hp : p a
  · simp
  · simp [h a hp]

theorem fts_rebuild_other_kind (chunks : List ChunkRow) (docId : Nat) (kind kind' : String)
    (text : List Char) (hne : kind' ≠ kind) :
    (fts_rebuild chunks docId kind text).filter (chunkMatches docId kind') =
      chunks.filter (chunkMatches docId kind') := by
  rw [fts_rebuild, List.filter_append]
  have h2 : ((chunk_text text).enum.map
      (fun p => (⟨docId, kind, p.1, p.2⟩ : ChunkRow))).filter
        (chunkMatches docId kind') = [] := by
    rw [List.filter_eq_nil_iff]
    intro a ha
    rcases List.mem_map.mp ha with ⟨p, _, hp⟩
    subst hp
    simp [chunkMatches, hne.symm]
  have h1 : (fts_delete chunks docId kind).filter (chunkMatches docId kind') =
      chunks.filter (chunkMatches docId kind') := by
    apply filter_filter_of_imp
    intro a ha
    have hk : a.kind = kind' := by
      simp [chunkMatches] at ha
      exact ha.2
    simp [chunkMatches, hk, hne]
  rw [h1, h2, List.append_nil]

/-- C10: promote_draft_to_saved deletes and rebuilds only the
saved-kind chunks of the document: every chunk that is not a
(document, saved) chunk — in particular every draft-kind chunk — is
preserved exactly, so immediately after promotion the previously
indexed draft-kind chunks are still present although no draft Version
row remains; a later discard_draft removes them. -/
theorem transformClaim10 (st : St) (docId : Nat) (now : ℚ) (d : DocR) (draft : VersionR)
    (hk : kindUnique st.versions) (hid : idsNodup st.versions)
    (hd : getDoc st docId = some d) (hdr : findVersion st docId "draft" = some draft) :
    (promote_draft_to_saved now docId st).chunks.filter
        (fun c => !chunkMatches docId "saved" c) =
      st.chunks.filter (fun c => !chunkMatches docId "saved" c) ∧
    (promote_draft_to_saved now docId st).chunks.filter (chunkMatches docId "draft") =
      st.chunks.filter (chunkMatches docId "draft") ∧
    (∀ c ∈ st.chunks, chunkMatches docId "draft" c = true →
      c ∈ (promote_draft_to_saved now docId st).chunks) ∧
    (promote_draft_to_saved now docId st).versions.filter (versionMatches docId "draft") = [] ∧
    (discard_draft docId (promote_draft_to_saved now docId st)).chunks.filter
      (chunkMatches docId "draft") = [] := by
  have hch := promote_chunks now st docId d draft hd hdr
  refine ⟨?_, ?_, ?_, ?_, ?_⟩
  · rw [hch]
    exact fts_rebuild_nonmatching st.chunks docId "saved" draft.plain_text
  · rw [hch]
    exact fts_rebuild_other_kind st.chunks docId "saved" "draft" draft.plain_text (by decide)
  · intro c hc hm
    have h2 : c ∈ (promote_draft_to_saved now docId st).chunks.filter
        (chunkMatches docId "draft") := by
      rw [hch, fts_rebuild_other_kind st.chunks docId "saved" "draft" draft.plain_text
        (by decide)]
      exact List.mem_filter.mpr ⟨hc, hm⟩
    exact (List.mem_filter.mp h2).1
  · exact promote_filter_draft_nil st docId now d draft hk hid hd hdr
  · have hd2 : getDoc (promote_draft_to_saved now docId st) docId =
        some { d with status := "ready", updated_at := now, last_error := none } := by
      have h1 : getDoc (promote_draft_to_saved now docId st) docId =
          getDoc (setDoc st docId (fun x =>
            { x with status := "ready", updated_at := now, last_error := none })) docId := by
        unfold getDoc
        rw [promote_docs now st docId d draft hd hdr]
      rw [h1]
      exact getDoc_setDoc st docId _ d hd (fun x => rfl)
    rw [discard_chunks _ docId _ hd2]
    exact filter_fts_delete_match _ docId "draft"

/-- Witness for C10 at the concrete state exSt2, whose draft has one
indexed draft-kind chunk. -/
theorem transformClaim10_witness :
    kindUnique exSt2.versions ∧ idsNodup exSt2.versions ∧
    getDoc exSt2 1 = some exDoc2 ∧ findVersion exSt2 1 "draft" = some exDraft2 ∧
    ((promote_draft_to_saved 5 1 exSt2).chunks.filter (fun c => !chunkMatches 1 "saved" c) =
      exSt2.chunks.filter (fun c => !chunkMatches 1 "saved" c) ∧
    (promote_draft_to_saved 5 1 exSt2).chunks.filter (chunkMatches 1 "draft") =
      exSt2.chunks.filter (chunkMatches 1 "draft") ∧
    (∀ c ∈ exSt2.chunks, chunkMatches 1 "draft" c = true →
      c ∈ (promote_draft_to_saved 5 1 exSt2).chunks) ∧
    (promote_draft_to_saved 5 1 exSt2).versions.filter (versionMatches 1 "draft") = [] ∧
    (discard_draft 1 (promote_draft_to_saved 5 1 exSt2)).chunks.filter
      (chunkMatches 1 "draft") = []) :=
  ⟨by decide, by decide, by decide, by decide,
    transformClaim10 exSt2 1 5 exDoc2 exDraft2 (by decide) (by decide) (by decide) (by decide)⟩

/-- The observable behaviour of one compiler subprocess run
(src/app/latex.py, lines 41-47): its exit code and its combined
stdout/stderr text. -/
structure PassResult where
  returncode : Int
  output : List Char
deriving DecidableEq

/-- Python s[-8000:]: the last n characters of s (all of s when s is
shorter). -/
def lastChars (n : Nat) (s : List Char) : List Char :=
  s.drop (s.length - n)

/-- The run count of compile_tex_to_pdf (src/app/latex.py, lines
25-28): 2 passes when a table of contents is requested else 1, capped
by max(1, min(5, settings.latex_max_runs)). -/
def compileRuns (toc : Bool) (latexMaxRuns : Int) : Nat :=
  (min (if toc then 2 else 1) (max 1 (min 5 latexMaxRuns))).toNat

/-- The diagnostic used when all passes succeed but no pdf appears
(src/app/latex.py, line 54). -/
def pdfNotProduced (lastOut : List Char) : List Char :=
  "PDF not produced. Output:\n".toList ++ lastOut

/-- What a call to compile_tex_to_pdf did: how many compiler passes it
launched, and either success (the artifact was copied to the
destination path) or the LatexCompileError diagnostic. -/
instance {α β : Type} [DecidableEq α] [DecidableEq β] : DecidableEq (Except α β) :=
  fun a b =>
    match a, b with
    | Except.error x, Except.error y =>
      if h : x = y then isTrue (by rw [h]) else isFalse (by simp [h])
    | Except.error _, Except.ok _ => isFalse (fun h => Except.noConfusion h)
    | Except.ok _, Except.error _ => isFalse (fun h => Except.noConfusion h)
    | Except.ok x, Except.ok y =>
      if h : x = y then isTrue (by rw [h]) else isFalse (by simp [h])

structure CompileOutcome where
  invocations : Nat
  result : Except (List Char) Unit
deriving DecidableEq

/-- The pass loop of compile_tex_to_pdf (src/app/latex.py, lines
39-54): i is the index of the next pass, r the number of passes still
to run, lastOut the truncated output of the previous pass.  A non-zero
exit aborts immediately with the truncated output as diagnostic; after
the last pass the artifact must exist. -/
def compileGo (passes : Nat → PassResult) (artifact : Bool) :
    Nat → Nat → List Char → CompileOutcome
  | i, 0, lastOut =>
    ⟨i, if artifact then Except.ok () else Except.error (pdfNotProduced lastOut)⟩
  | i, r + 1, _ =>
    let p := passes i
    let lo := lastChars 8000 p.output
    if p.returncode ≠ 0 then ⟨i + 1, Except.error lo⟩
    else compileGo passes artifact (i + 1) r lo

/-- compile_tex_to_pdf (src/app/latex.py, lines 15-61), parameterised
by the oracle giving each pass's subprocess result and by whether
main.pdf exists in the scratch directory after the passes. -/
def compile_tex_to_pdf (passes : Nat → PassResult) (artifact : Bool) (toc : Bool)
    (latexMaxRuns : Int) : CompileOutcome :=
  compileGo passes artifact 0 (compileRuns toc latexMaxRuns) []

theorem compileGo_all_ok (passes : Nat → PassResult) (artifact : Bool) :
    ∀ (r i : Nat) (lo : List Char), (∀ k, k < r → (passes (i + k)).returncode = 0) →
      (compileGo passes artifact i r lo).invocations = i + r ∧
      ((compileGo passes artifact i r lo).result = Except.ok () ↔ artifact = true) := by
  intro r
  induction r with
  | zero =>
    intro i lo h
    constructor
    · simp [compileGo]
    · cases artifact <;> simp [compileGo]
  | succ r ih =>
    intro i lo h
    have h0 : (passes i).returncode = 0 := by
      have := h 0 (by omega)
      simpa using this
    have hrec := ih (i + 1) (lastChars 8000 (passes i).output) (fun k hk => by
      have := h (k + 1) (by omega)
      rw [show i + (k + 1) = i + 1 + k by omega] at this
      exact this)
    simp only [compileGo, h0]
    rw [if_neg (by simp)]
    constructor
    · rw [hrec.1]
      omega
    · exact hrec.2

theorem compileGo_first_fail (passes : Nat → PassResult) (artifact : Bool) :
    ∀ (k r i : Nat) (lo : List Char), k < r → (passes (i + k)).returncode ≠ 0 →
      (∀ j, j < k → (passes (i + j)).returncode = 0) →
      compileGo passes artifact i r lo =
        ⟨i + k + 1, Except.error (lastChars 8000 (passes (i + k)).output)⟩ := by
  intro k
  induction k with
  | zero =>
    intro r i lo hk hne hprev
    cases r with
    | zero => omega
    | succ r =>
      simp only [compileGo]
      rw [if_pos (by simpa using hne)]
      simp
  | succ k ih =>
    intro r i lo hk hne hprev
    cases r with
    | zero => omega
    | succ r =>
      have h0 : (passes i).returncode = 0 := by
        have := hprev 0 (by omega)
        simpa using this
      simp only [compileGo, h0]
      rw [if_neg (by simp)]
      have hrec := ih r (i + 1) (lastChars 8000 (passes i).output) (by omega)
        (by rw [show i + 1 + k = i + (k + 1) by omega]; exact hne)
        (fun j hj => by
          rw [show i + 1 + j = i + (j + 1) by omega]
          exact hprev (j + 1) (by omega))
      rw [hrec]
      rw [show i + 1 + k = i + (k + 1) by omega]

/-- C6: compile_tex_to_pdf raises LatexCompileError exactly when some
pass exits non-zero or the artifact is missing after all passes;
success requires every pass to exit zero and the artifact to exist,
and then all scheduled passes ran; at the first non-zero pass the
adapter aborts immediately — exactly that many pass invocations
happened — carrying the last 8000 characters of that pass's combined
output as the diagnostic. -/
theorem transformClaim6 (passes : Nat → PassResult) (artifact toc : Bool)
    (latexMaxRuns : Int) :
    ((compile_tex_to_pdf passes artifact toc latexMaxRuns).result = Except.ok () ↔
      ((∀ i, i < compileRuns toc latexMaxRuns → (passes i).returncode = 0) ∧
        artifact = true)) ∧
    ((∀ i, i < compileRuns toc latexMaxRuns → (passes i).returncode = 0) →
      (compile_tex_to_pdf passes artifact toc latexMaxRuns).invocations =
        compileRuns toc latexMaxRuns) ∧
    (∀ k, k < compileRuns toc latexMaxRuns → (passes k).returncode ≠ 0 →
      (∀ j, j < k → (passes j).returncode = 0) →
      compile_tex_to_pdf passes artifact toc latexMaxRuns =
        ⟨k + 1, Except.error (lastChars 8000 (passes k).output)⟩) := by
  refine ⟨?_, ?_, ?_⟩
  · by_cases hall : ∀ i, i < compileRuns toc latexMaxRuns → (passes i).returncode = 0
    · have h := compileGo_all_ok passes artifact (compileRuns toc latexMaxRuns) 0 []
        (fun k hk => by simpa using hall k hk)
      rw [compile_tex_to_pdf, h.2]
      constructor
      · intro ha
        exact ⟨hall, ha⟩
      · intro hh
        exact hh.2
    · push_neg at hall
      rcases hall with ⟨i0, hi0, hne0⟩
      have hex : ∃ k, k < compileRuns toc latexMaxRuns ∧ (passes k).returncode ≠ 0 :=
        ⟨i0, hi0, hne0⟩
      have hspec := Nat.find_spec hex
      have hmin := fun j (hj : j < Nat.find hex) => Nat.find_min hex hj
      have hfail := compileGo_first_fail passes artifact (Nat.find hex)
        (compileRuns toc latexMaxRuns) 0 [] hspec.1 (by simpa using hspec.2)
        (fun j hj => by
          simp only [Nat.zero_add]
          by_contra hc
          exact hmin j hj ⟨Nat.lt_trans hj hspec.1, hc⟩)
      rw [compile_tex_to_pdf, hfail]
      constructor
      · intro h
        simp at h
      · intro h
        exact absurd (h.1 (Nat.find hex) hspec.1) hspec.2
  · intro hall
    have h := compileGo_all_ok passes artifact (compileRuns toc latexMaxRuns) 0 []
      (fun k hk => by simpa using hall k hk)
    rw [compile_tex_to_pdf, h.1]
    omega
  · intro k hk hne hprev
    have h := compileGo_first_fail passes artifact k (compileRuns toc latexMaxRuns) 0 []
      hk (by simpa using hne) (fun j hj => by simpa using hprev j hj)
    rw [compile_tex_to_pdf, h]
    simp

/-- Witness for C6: a run whose first pass fails with exit code 1. -/
theorem transformClaim6_witness :
    ((compile_tex_to_pdf (fun i => ⟨1, ['e']⟩) true false 2).result = Except.ok () ↔
      ((∀ i, i < compileRuns false 2 → ((fun i => (⟨1, ['e']⟩ : PassResult)) i).returncode = 0) ∧
        true = true)) ∧
    ((∀ i, i < compileRuns false 2 →
        ((fun i => (⟨1, ['e']⟩ : PassResult)) i).returncode = 0) →
      (compile_tex_to_pdf (fun i => ⟨1, ['e']⟩) true false 2).invocations =
        compileRuns false 2) ∧
    (∀ k, k < compileRuns false 2 →
      ((fun i => (⟨1, ['e']⟩ : PassResult)) k).returncode ≠ 0 →
      (∀ j, j < k → ((fun i => (⟨1, ['e']⟩ : PassResult)) j).returncode = 0) →
      compile_tex_to_pdf (fun i => ⟨1, ['e']⟩) true false 2 =
        ⟨k + 1, Except.error
          (lastChars 8000 ((fun i => (⟨1, ['e']⟩ : PassResult)) k).output)⟩) :=
  transformClaim6 (fun i => ⟨1, ['e']⟩) true false 2

/-- Python str.lower() for the ASCII configuration strings. -/
def pyLower (s : List Char) : List Char :=
  s.map Char.toLower

/-- Python substring membership (the check "No endpoints found" in
last_err of src/app/llm.py, line 125). -/
def containsSub (needle : List Char) : List Char → Bool
  | [] => needle.isEmpty
  | c :: cs => needle.isPrefixOf (c :: cs) || containsSub needle cs

/-- The fallback loop of call_llm_tex (src/app/llm.py, lines 117-131):
try each candidate in order; remember the last error text; on any
error — whether or not it mentions missing endpoints or a 404 code
(the two branches differ only in the log line) — continue with the
next candidate; when the list is exhausted raise the last error text,
or the fixed fallback text when it is empty.  The first component
counts how many candidates were attempted. -/
def tryCandidates (post : List Char → Except (List Char) (List Char)) :
    List (List Char) → List Char → Nat × Except (List Char) (List Char × List Char)
  | [], lastErr =>
    (0, Except.error (if lastErr.isEmpty then "LLM failed".toList else lastErr))
  | m :: ms, lastErr =>
    match post m with
    | Except.ok out => (1, Except.ok (out, m))
    | Except.error e =>
      if containsSub "No endpoints found".toList e || containsSub "\x22code\x22:404".toList e then
        let r := tryCandidates post ms e
        (r.1 + 1, r.2)
      else
        let r := tryCandidates post ms e
        (r.1 + 1, r.2)

/-- call_llm_tex (src/app/llm.py, lines 95-131): provider checks, the
requested-model / auto-candidate choice, then the fallback loop capped
at 6 attempts.  post is the oracle for _post_chat on a given model id. -/
def call_llm_tex (provider apiKey requested : List Char)
    (autoCandidates : List (List Char))
    (post : List Char → Except (List Char) (List Char)) :
    Nat × Except (List Char) (List Char × List Char) :=
  let p := pyStrip (pyLower provider)
  if p = "none".toList then (0, Except.error "LLM_PROVIDER=none (disabled)".toList)
  else if ¬ p = "openrouter".toList then
    (0, Except.error ("Unsupported LLM_PROVIDER: ".toList ++ p))
  else if apiKey = [] then (0, Except.error "OPENROUTER_API_KEY is empty".toList)
  else
    let req := pyStrip requested
    let cands := if ¬ req = [] ∧ ¬ pyLower req = "auto".toList then [req] else autoCandidates
    tryCandidates post (cands.take 6) []

theorem tryCandidates_continue (post : List Char → Except (List Char) (List Char))
    (m : List Char) (ms : List (List Char)) (lastErr e : List Char)
    (hp : post m = Except.error e) :
    tryCandidates post (m :: ms) lastErr =
      ((tryCandidates post ms e).1 + 1, (tryCandidates post ms e).2) := by
  simp only [tryCandidates, hp]
  rw [ite_self]

theorem tryCandidates_count_le (post : List Char → Except (List Char) (List Char)) :
    ∀ (ms : List (List Char)) (lastErr : List Char),
      (tryCandidates post ms lastErr).1 ≤ ms.length := by
  intro ms
  induction ms with
  | nil => intro lastErr; simp [tryCandidates]
  | cons m ms ih =>
    intro lastErr
    cases hp : post m with
    | ok out => simp [tryCandidates, hp]
    | error e =>
      rw [tryCandidates_continue post m ms lastErr e hp]
      have := ih e
      simp only [List.length_cons]
      omega

theorem tryCandidates_all_fail (post : List Char → Except (List Char) (List Char)) :
    ∀ (ms : List (List Char)) (mlast lastErr e : List Char),
      (∀ m, m ∈ ms ++ [mlast] → ∃ em, post m = Except.error em) →
      post mlast = Except.error e → e ≠ [] →
      tryCandidates post (ms ++ [mlast]) lastErr = (ms.length + 1, Except.error e) := by
  intro ms
  induction ms with
  | nil =>
    intro mlast lastErr e hall hp hne
    rw [List.nil_append, tryCandidates_continue post mlast [] lastErr e hp]
    simp [tryCandidates, List.isEmpty_iff, hne]
  | cons m ms ih =>
    intro mlast lastErr e hall hp hne
    rcases hall m (by simp) with ⟨em, hm⟩
    rw [List.cons_append, tryCandidates_continue post m (ms ++ [mlast]) lastErr em hm]
    rw [ih mlast em e (fun x hx => hall x (by simp at hx ⊢; tauto)) hp hne]
    simp

/-- C8: call_llm_tex attempts at most 6 candidates; the fallback loop
tries them in order and continues to the next candidate on any error,
whether or not the error text mentions missing endpoints or a 404
code; and when every candidate fails it raises the last failure's
(non-empty) message. -/
theorem transformClaim8 (provider apiKey requested : List Char)
    (autoCandidates : List (List Char))
    (post : List Char → Except (List Char) (List Char)) :
    (call_llm_tex provider apiKey requested autoCandidates post).1 ≤ 6 ∧
    (∀ (m : List Char) (ms : List (List Char)) (lastErr e : List Char),
      post m = Except.error e →
      tryCandidates post (m :: ms) lastErr =
        ((tryCandidates post ms e).1 + 1, (tryCandidates post ms e).2)) ∧
    (∀ (ms : List (List Char)) (mlast lastErr e : List Char),
      (∀ m, m ∈ ms ++ [mlast] → ∃ em, post m = Except.error em) →
      post mlast = Except.error e → e ≠ [] →
      tryCandidates post (ms ++ [mlast]) lastErr = (ms.length + 1, Except.error e)) := by
  refine ⟨?_, tryCandidates_continue post, tryCandidates_all_fail post⟩
  simp only [call_llm_tex]
  by_cases h1 : pyStrip (pyLower provider) = "none".toList
  · rw [if_pos h1]
    simp
  · rw [if_neg h1]
    by_cases h2 : pyStrip (pyLower provider) = "openrouter".toList
    · have h2' : ¬ ¬ pyStrip (pyLower provider) = "openrouter".toList := fun hn => hn h2
      rw [if_neg h2']
      by_cases h3 : apiKey = []
      · rw [if_pos h3]
        simp
      · rw [if_neg h3]
        refine le_trans (tryCandidates_count_le post _ []) ?_
        rw [List.length_take]
        omega
    · rw [if_pos h2]
      simp

/-- Witness for C8: two auto candidates that both fail. -/
theorem transformClaim8_witness :
    (call_llm_tex "openrouter".toList ['k'] "auto".toList [['a'], ['b']]
      (fun m => Except.error ['x'])).1 ≤ 6 ∧
    (∀ (m : List Char) (ms : List (List Char)) (lastErr e : List Char),
      (fun m => (Except.error ['x'] : Except (List Char) (List Char))) m = Except.error e →
      tryCandidates (fun m => Except.error ['x']) (m :: ms) lastErr =
        ((tryCandidates (fun m => Except.error ['x']) ms e).1 + 1,
          (tryCandidates (fun m => Except.error ['x']) ms e).2)) ∧
    (∀ (ms : List (List Char)) (mlast lastErr e : List Char),
      (∀ m, m ∈ ms ++ [mlast] →
        ∃ em, (fun m => (Except.error ['x'] : Except (List Char) (List Char))) m =
          Except.error em) →
      (fun m => (Except.error ['x'] : Except (List Char) (List Char))) mlast =
        Except.error e → e ≠ [] →
      tryCandidates (fun m => Except.error ['x']) (ms ++ [mlast]) lastErr =
        (ms.length + 1, Except.error e)) :=
  transformClaim8 "openrouter".toList ['k'] "auto".toList [['a'], ['b']]
    (fun m => Except.error ['x'])

/-- The external effects a job run interacts with.  llm gives the
outcome of the job's n-th call_llm_tex call on its user prompt;
compile gives the outcome of the n-th compile_tex_to_pdf call (none =
success and the artifact is written, some diag = LatexCompileError
with that diagnostic); extract is extract_text_from_pdf on the
document's original artifact.  The pure text transformations
extract_body / make_full_tex (tex_utils.py), tex_to_text
(tex_convert.py), build_user_prompt (prompting.py) and
_text_to_tex_body_no_change (tasks.py) are carried as opaque
functions: no claim depends on their content and the theorems
quantify over them. -/
structure JobEnv where
  llm : Nat → List Char → Except (List Char) (List Char)
  compile : Nat → Option (List Char)
  extract : Except (List Char) (List Char)
  extract_body : List Char → List Char
  make_full_tex : List Char → Bool → List Char
  tex_to_text : List Char → List Char
  buildUserPrompt : List Char → Bool → List Char
  textToTexBody : List Char → List Char

/-- What a job run produced: the final state, whether the job returned
normally or re-raised an exception (with its message), and how many
compile_tex_to_pdf and call_llm_tex calls it made. -/
structure JobOut where
  st : St
  outcome : Except (List Char) Unit
  nCompile : Nat
  nLlm : Nat
deriving DecidableEq

/-- The first session of every job (src/app/tasks.py, lines 79-85):
status=processing, last_error cleared. -/
def markProcessing (now : ℚ) (docId : Nat) (st : St) : St :=
  setDoc st docId (fun d =>
    { d with status := "processing", last_error := none, updated_at := now })

/-- The shared exception handler session (src/app/tasks.py, lines
188-195): if the document still exists, record status=error and the
message. -/
def failDoc (now : ℚ) (docId : Nat) (msg : List Char) (st : St) : St :=
  match getDoc st docId with
  | none => st
  | some _ => setDoc st docId (fun d =>
      { d with status := "error", last_error := some msg, updated_at := now })

/-- Caching freshly extracted text on the document row. -/
def setExtracted (st : St) (docId : Nat) (t : List Char) : St :=
  setDoc st docId (fun d => { d with extracted_text := some t })

/-- Input selection of transform_tex_task (src/app/tasks.py, lines
93-110): for base original use the cached extracted text, extracting
if absent; otherwise use the requested version row's tex source, or
fall back to the extracted text when the row is missing.  Returns the
(possibly updated) state, the payload and the is_tex flag. -/
def payloadStep (env : JobEnv) (docId : Nat) (baseKind : String) (st : St) (doc : DocR) :
    Except (List Char) (St × List Char × Bool) :=
  if baseKind = "original" then
    let cached := doc.extracted_text.getD []
    if cached = [] then
      match env.extract with
      | Except.error e => Except.error e
      | Except.ok t => Except.ok (setExtracted st docId t, t, false)
    else Except.ok (st, cached, false)
  else
    match findVersion st docId baseKind with
    | some v => Except.ok (st, v.tex_source, baseKind == "draft" || baseKind == "saved")
    | none =>
      let cached := doc.extracted_text.getD []
      if cached = [] then
        match env.extract with
        | Except.error e => Except.error e
        | Except.ok t => Except.ok (setExtracted st docId t, t, false)
      else Except.ok (st, cached, false)

/-- The repair-round user prompt of transform_tex_task
(src/app/tasks.py, lines 138-144): the compile diagnostic followed by
the full failed source. -/
def repairUserPrompt (diag fullTex : List Char) : List Char :=
  "ОШИБКА КОМПИЛЯЦИИ:\n".toList ++ diag ++
    "\n\nТЕКУЩИЙ LaTeX:\n<<<\n".toList ++ fullTex ++ "\n>>>\n".toList

/-- The draft upsert of the persistence session (src/app/tasks.py,
lines 162-178): update the draft row in place, or insert a fresh one. -/
def upsertDraft (now : ℚ) (docId : Nat) (fullTex : List Char) (outPdf : String)
    (plain : List Char) (st : St) : St :=
  match findVersion st docId "draft" with
  | none =>
    { st with
      versions := st.versions ++
        [⟨st.nextVid, docId, "draft", fullTex, outPdf, plain, now, now⟩],
      nextVid := st.nextVid + 1 }
  | some v =>
    { st with versions := st.versions.map (fun w =>
        if w.id == v.id then
          { w with
            tex_source := fullTex
            pdf_path := outPdf
            plain_text := plain
            updated_at := now }
        else w) }

/-- The persistence session shared by transform_tex_task (lines
150-184) and normalize_original_task (lines 274-305): re-read the
document; if the editor is no longer active, just set status=ready and
discard the computed result; otherwise upsert the draft row, rebuild
the draft search index and set status=ready. -/
def persistDraft (env : JobEnv) (now : ℚ) (docId : Nat) (outPdf : String)
    (fullTex : List Char) (st : St) : St :=
  match getDoc st docId with
  | none => st
  | some doc =>
    if ¬ editorActive now doc then
      setDoc st docId (fun d => { d with status := "ready", updated_at := now })
    else
      let plain := env.tex_to_text fullTex
      let st1 := upsertDraft now docId fullTex outPdf plain st
      let st2 := { st1 with chunks := fts_rebuild st1.chunks docId "draft" plain }
      setDoc st2 docId (fun d =>
        { d with status := "ready", updated_at := now, last_error := none })

/-- Repair round of transform_tex_task (src/app/tasks.py, lines
133-148): send the diagnostic plus the full failed source back to the
LLM, re-wrap, recompile once; a second compile failure is an
uncaught-by-this-round exception. -/
def transformRepair (env : JobEnv) (now : ℚ) (docId : Nat) (toc : Bool) (st2 : St)
    (fullTex diag : List Char) : JobOut :=
  match env.llm 1 (repairUserPrompt diag fullTex) with
  | Except.error e2 => ⟨failDoc now docId e2 st2, Except.error e2, 1, 2⟩
  | Except.ok texFixed =>
    match env.compile 1 with
    | none =>
      ⟨persistDraft env now docId (genPath docId "draft")
        (env.make_full_tex (env.extract_body texFixed) toc)
        (writeFile st2 (genPath docId "draft")), Except.ok (), 2, 2⟩
    | some diag2 => ⟨failDoc now docId diag2 st2, Except.error diag2, 2, 2⟩

/-- First compilation of transform_tex_task (src/app/tasks.py, lines
130-148): on success persist; on LatexCompileError run the repair
round. -/
def transformCompile (env : JobEnv) (now : ℚ) (docId : Nat) (toc : Bool) (st2 : St)
    (fullTex : List Char) : JobOut :=
  match env.compile 0 with
  | none =>
    ⟨persistDraft env now docId (genPath docId "draft") fullTex
      (writeFile st2 (genPath docId "draft")), Except.ok (), 1, 1⟩
  | some diag => transformRepair env now docId toc st2 fullTex diag

/-- LLM call of transform_tex_task (src/app/tasks.py, lines 126-128). -/
def transformLlm (env : JobEnv) (now : ℚ) (docId : Nat) (toc : Bool) (st2 : St)
    (payload : List Char) (isTex : Bool) : JobOut :=
  match env.llm 0 (env.buildUserPrompt payload isTex) with
  | Except.error e => ⟨failDoc now docId e st2, Except.error e, 0, 1⟩
  | Except.ok texRaw =>
    transformCompile env now docId toc st2 (env.make_full_tex (env.extract_body texRaw) toc)

/-- Input-selection session of transform_tex_task (src/app/tasks.py,
lines 88-124). -/
def transformSelect (env : JobEnv) (now : ℚ) (docId : Nat) (baseKind : String)
    (toc : Bool) (st1 : St) (doc : DocR) : JobOut :=
  match payloadStep env docId baseKind st1 doc with
  | Except.error e => ⟨failDoc now docId e st1, Except.error e, 0, 0⟩
  | Except.ok (st2, payload, isTex) => transformLlm env now docId toc st2 payload isTex

/-- transform_tex_task (src/app/tasks.py, lines 70-196), assembled
from the stages above: mark the document processing, select the input
payload, call the LLM, wrap and compile with one repair round; the
liveness check guards the persistence session; the except-handler
records status=error and re-raises. -/
def transform_tex_task (env : JobEnv) (now : ℚ) (docId : Nat) (baseKind : String)
    (toc : Bool) (st0 : St) : JobOut :=
  match getDoc st0 docId with
  | none => ⟨st0, Except.ok (), 0, 0⟩
  | some _ =>
    match getDoc (markProcessing now docId st0) docId with
    | none => ⟨markProcessing now docId st0, Except.ok (), 0, 0⟩
    | some doc =>
      transformSelect env now docId baseKind toc (markProcessing now docId st0) doc

/-- process_pdf_task (src/app/tasks.py, lines 41-68): extract the
text, cache it, set status=ready and rebuild the original index; on
any exception record status=error with the full message and return
normally (this handler does not re-raise). -/
def process_pdf_task (env : JobEnv) (now : ℚ) (docId : Nat) (st0 : St) : JobOut :=
  match getDoc st0 docId with
  | none => ⟨st0, Except.ok (), 0, 0⟩
  | some _ =>
    let st1 := markProcessing now docId st0
    match getDoc st1 docId with
    | none => ⟨st1, Except.ok (), 0, 0⟩
    | some doc =>
      match env.extract with
      | Except.error e => ⟨failDoc now docId e st1, Except.ok (), 0, 0⟩
      | Except.ok text =>
        let st2 := setDoc st1 docId (fun d =>
          { d with extracted_text := some text, status := "ready", updated_at := now })
        ⟨{ st2 with chunks := fts_rebuild st2.chunks docId "original" text },
          Except.ok (), 0, 0⟩

/-- Body of normalize_original_task after the document re-read
(src/app/tasks.py, lines 258-305): liveness check, deterministic
text-to-tex conversion, a single compile with no repair round, then
the shared persistence session. -/
def normalizeBody (env : JobEnv) (now : ℚ) (docId : Nat) (st1 : St) (doc : DocR) :
    JobOut :=
  if ¬ editorActive now doc then
    ⟨setDoc st1 docId (fun d => { d with status := "ready", updated_at := now }),
      Except.ok (), 0, 0⟩
  else
    match (if pyStrip (doc.extracted_text.getD []) = [] then
        (match env.extract with
         | Except.error e => Except.error e
         | Except.ok t => Except.ok (setExtracted st1 docId t, t))
      else Except.ok (st1, pyStrip (doc.extracted_text.getD []))) with
    | Except.error e =>
      ⟨failDoc now docId (e.take 2000) st1, Except.error e, 0, 0⟩
    | Except.ok (st2, text) =>
      match env.compile 0 with
      | some diag => ⟨failDoc now docId (diag.take 2000) st2, Except.error diag, 1, 0⟩
      | none =>
        ⟨persistDraft env now docId (genPath docId "draft")
          (env.make_full_tex (env.textToTexBody text) false)
          (writeFile st2 (genPath docId "draft")), Except.ok (), 1, 0⟩

/-- normalize_original_task (src/app/tasks.py, lines 243-317): the
sessions around normalizeBody; on any exception the handler records
status=error with the message truncated to 2000 characters and
re-raises. -/
def normalize_original_task (env : JobEnv) (now : ℚ) (docId : Nat) (st0 : St) : JobOut :=
  match getDoc st0 docId with
  | none => ⟨st0, Except.ok (), 0, 0⟩
  | some _ =>
    match getDoc (markProcessing now docId st0) docId with
    | none => ⟨markProcessing now docId st0, Except.ok (), 0, 0⟩
    | some doc => normalizeBody env now docId (markProcessing now docId st0) doc

theorem getDoc_setDoc_none (st : St) (docId : Nat) (f : DocR → DocR)
    (hpres : ∀ x, (f x).id = x.id) (hd : getDoc st docId = none) :
    getDoc (setDoc st docId f) docId = none := by
  unfold getDoc setDoc
  rw [List.find?_map]
  have hcomp : ((fun x : DocR => x.id == docId) ∘
      (fun x => if x.id == docId then f x else x)) = (fun x : DocR => x.id == docId) := by
    funext x
    by_cases hx : x.id = docId
    · simp [hx, hpres]
    · simp [hx]
  rw [hcomp]
  unfold getDoc at hd
  rw [hd]
  rfl

theorem editorActive_fields (now : ℚ) (a b : DocR)
    (h1 : a.editor_open = b.editor_open)
    (h2 : a.editor_heartbeat_at = b.editor_heartbeat_at) :
    editorActive now a = editorActive now b := by
  unfold editorActive
  rw [h1, h2]

theorem payloadStep_cases (env : JobEnv) (docId : Nat) (baseKind : String) (st : St)
    (doc : DocR) (st2 : St) (payload : List Char) (isTex : Bool)
    (h : payloadStep env docId baseKind st doc = Except.ok (st2, payload, isTex)) :
    st2 = st ∨ ∃ t, st2 = setExtracted st docId t := by
  unfold payloadStep at h
  repeat'
    first
      | split at h
      | dsimp only at h
  all_goals
    first
      | exact absurd h (fun hc => Except.noConfusion hc)
      | (simp only [Except.ok.injEq, Prod.mk.injEq] at h
         first
           | exact Or.inl h.1.symm
           | exact Or.inr ⟨_, h.1.symm⟩)

theorem persistDraft_inactive (env : JobEnv) (now : ℚ) (docId : Nat) (outPdf : String)
    (fullTex : List Char) (st : St) (d : DocR)
    (hd : getDoc st docId = some d) (hia : editorActive now d = false) :
    persistDraft env now docId outPdf fullTex st =
      setDoc st docId (fun x => { x with status := "ready", updated_at := now }) := by
  unfold persistDraft
  rw [hd]
  simp [hia]

theorem transform_eq_noDoc (env : JobEnv) (now : ℚ) (docId : Nat) (baseKind : String)
    (toc : Bool) (st : St) (h0 : getDoc st docId = none) :
    transform_tex_task env now docId baseKind toc st = ⟨st, Except.ok (), 0, 0⟩ := by
  unfold transform_tex_task
  rw [h0]

theorem transform_eq_goneDoc (env : JobEnv) (now : ℚ) (docId : Nat) (baseKind : String)
    (toc : Bool) (st : St) (d0 : DocR)
    (h0 : getDoc st docId = some d0)
    (h1 : getDoc (markProcessing now docId st) docId = none) :
    transform_tex_task env now docId baseKind toc st =
      ⟨markProcessing now docId st, Except.ok (), 0, 0⟩ := by
  unfold transform_tex_task
  rw [h0, h1]

theorem transform_eq_select (env : JobEnv) (now : ℚ) (docId : Nat) (baseKind : String)
    (toc : Bool) (st : St) (d0 doc : DocR)
    (h0 : getDoc st docId = some d0)
    (h1 : getDoc (markProcessing now docId st) docId = some doc) :
    transform_tex_task env now docId baseKind toc st =
      transformSelect env now docId baseKind toc (markProcessing now docId st) doc := by
  unfold transform_tex_task
  rw [h0, h1]

theorem transformSelect_err (env : JobEnv) (now : ℚ) (docId : Nat) (baseKind : String)
    (toc : Bool) (st1 : St) (doc : DocR) (e : List Char)
    (h2 : payloadStep env docId baseKind st1 doc = Except.error e) :
    transformSelect env now docId baseKind toc st1 doc =
      ⟨failDoc now docId e st1, Except.error e, 0, 0⟩ := by
  unfold transformSelect
  rw [h2]

theorem transformSelect_ok (env : JobEnv) (now : ℚ) (docId : Nat) (baseKind : String)
    (toc : Bool) (st1 : St) (doc : DocR) (st2 : St) (payload : List Char) (isTex : Bool)
    (h2 : payloadStep env docId baseKind st1 doc = Except.ok (st2, payload, isTex)) :
    transformSelect env now docId baseKind toc st1 doc =
      transformLlm env now docId toc st2 payload isTex := by
  unfold transformSelect
  rw [h2]

theorem transformLlm_err (env : JobEnv) (now : ℚ) (docId : Nat) (toc : Bool) (st2 : St)
    (payload : List Char) (isTex : Bool) (e : List Char)
    (h3 : env.llm 0 (env.buildUserPrompt payload isTex) = Except.error e) :
    transformLlm env now docId toc st2 payload isTex =
      ⟨failDoc now docId e st2, Except.error e, 0, 1⟩ := by
  unfold transformLlm
  rw [h3]

theorem transformLlm_ok (env : JobEnv) (now : ℚ) (docId : Nat) (toc : Bool) (st2 : St)
    (payload : List Char) (isTex : Bool) (texRaw : List Char)
    (h3 : env.llm 0 (env.buildUserPrompt payload isTex) = Except.ok texRaw) :
    transformLlm env now docId toc st2 payload isTex =
      transformCompile env now docId toc st2
        (env.make_full_tex (env.extract_body texRaw) toc) := by
  unfold transformLlm
  rw [h3]

theorem transformCompile_ok (env : JobEnv) (now : ℚ) (docId : Nat) (toc : Bool)
    (st2 : St) (fullTex : List Char) (h4 : env.compile 0 = none) :
    transformCompile env now docId toc st2 fullTex =
      ⟨persistDraft env now docId (genPath docId "draft") fullTex
        (writeFile st2 (genPath docId "draft")), Except.ok (), 1, 1⟩ := by
  unfold transformCompile
  rw [h4]

theorem transformCompile_fail (env : JobEnv) (now : ℚ) (docId : Nat) (toc : Bool)
    (st2 : St) (fullTex diag : List Char) (h4 : env.compile 0 = some diag) :
    transformCompile env now docId toc st2 fullTex =
      transformRepair env now docId toc st2 fullTex diag := by
  unfold transformCompile
  rw [h4]

theorem transformRepair_llmErr (env : JobEnv) (now : ℚ) (docId : Nat) (toc : Bool)
    (st2 : St) (fullTex diag e2 : List Char)
    (h5 : env.llm 1 (repairUserPrompt diag fullTex) = Except.error e2) :
    transformRepair env now docId toc st2 fullTex diag =
      ⟨failDoc now docId e2 st2, Except.error e2, 1, 2⟩ := by
  unfold transformRepair
  rw [h5]

theorem transformRepair_ok (env : JobEnv) (now : ℚ) (docId : Nat) (toc : Bool)
    (st2 : St) (fullTex diag texFixed : List Char)
    (h5 : env.llm 1 (repairUserPrompt diag fullTex) = Except.ok texFixed)
    (h6 : env.compile 1 = none) :
    transformRepair env now docId toc st2 fullTex diag =
      ⟨persistDraft env now docId (genPath docId "draft")
        (env.make_full_tex (env.extract_body texFixed) toc)
        (writeFile st2 (genPath docId "draft")), Except.ok (), 2, 2⟩ := by
  unfold transformRepair
  rw [h5, h6]

theorem transformRepair_fail2 (env : JobEnv) (now : ℚ) (docId : Nat) (toc : Bool)
    (st2 : St) (fullTex diag texFixed diag2 : List Char)
    (h5 : env.llm 1 (repairUserPrompt diag fullTex) = Except.ok texFixed)
    (h6 : env.compile 1 = some diag2) :
    transformRepair env now docId toc st2 fullTex diag =
      ⟨failDoc now docId diag2 st2, Except.error diag2, 2, 2⟩ := by
  unfold transformRepair
  rw [h5, h6]

theorem transformRepair_counts (env : JobEnv) (now : ℚ) (docId : Nat) (toc : Bool)
    (st2 : St) (fullTex diag : List Char) :
    (transformRepair env now docId toc st2 fullTex diag).nCompile ≤ 2 ∧
    (transformRepair env now docId toc st2 fullTex diag).nLlm ≤ 2 := by
  cases h5 : env.llm 1 (repairUserPrompt diag fullTex) with
  | error e2 =>
    rw [transformRepair_llmErr env now docId toc st2 fullTex diag e2 h5]
    exact ⟨by simp, by simp⟩
  | ok texFixed =>
    cases h6 : env.compile 1 with
    | none =>
      rw [transformRepair_ok env now docId toc st2 fullTex diag texFixed h5 h6]
      exact ⟨by simp, by simp⟩
    | some diag2 =>
      rw [transformRepair_fail2 env now docId toc st2 fullTex diag texFixed diag2 h5 h6]
      exact ⟨by simp, by simp⟩

theorem transform_counts_le (env : JobEnv) (now : ℚ) (docId : Nat) (baseKind : String)
    (toc : Bool) (st : St) :
    (transform_tex_task env now docId baseKind toc st).nCompile ≤ 2 ∧
    (transform_tex_task env now docId baseKind toc st).nLlm ≤ 2 := by
  cases h0 : getDoc st docId with
  | none =>
    rw [transform_eq_noDoc env now docId baseKind toc st h0]
    exact ⟨by simp, by simp⟩
  | some d0 =>
    cases h1 : getDoc (markProcessing now docId st) docId with
    | none =>
      rw [transform_eq_goneDoc env now docId baseKind toc st d0 h0 h1]
      exact ⟨by simp, by simp⟩
    | some doc =>
      rw [transform_eq_select env now docId baseKind toc st d0 doc h0 h1]
      cases h2 : payloadStep env docId baseKind (markProcessing now docId st) doc with
      | error e =>
        rw [transformSelect_err env now docId baseKind toc _ doc e h2]
        exact ⟨by simp, by simp⟩
      | ok trip =>
        obtain ⟨st2, payload, isTex⟩ := trip
        rw [transformSelect_ok env now docId baseKind toc _ doc st2 payload isTex h2]
        cases h3 : env.llm 0 (env.buildUserPrompt payload isTex) with
        | error e =>
          rw [transformLlm_err env now docId toc st2 payload isTex e h3]
          exact ⟨by simp, by simp⟩
        | ok texRaw =>
          rw [transformLlm_ok env now docId toc st2 payload isTex texRaw h3]
          cases h4 : env.compile 0 with
          | none =>
            rw [transformCompile_ok env now docId toc st2 _ h4]
            exact ⟨by simp, by simp⟩
          | some diag =>
            rw [transformCompile_fail env now docId toc st2 _ diag h4]
            exact transformRepair_counts env now docId toc st2 _ diag

theorem failDoc_getDoc (now : ℚ) (docId : Nat) (msg : List Char) (st : St) (d : DocR)
    (hd : getDoc st docId = some d) :
    getDoc (failDoc now docId msg st) docId =
      some { d with status := "error", last_error := some msg, updated_at := now } := by
  unfold failDoc
  rw [hd]
  exact getDoc_setDoc st docId _ d hd (fun x => rfl)

/-- C1: a transform job run never makes more than 2 compile calls (and
never more than 2 LLM calls); when the first compilation fails, the
repair prompt sent back to the LLM contains the compile diagnostic and
the full failed source; if the repair LLM call succeeds the job
recompiles exactly once more (2 compile calls, 2 LLM calls — never a
third compilation), and a failure of that second compilation
propagates out of the repair round: the job records status=error with
that diagnostic on the document and re-raises it; if the repair LLM
call itself fails, no second compilation is attempted. -/
theorem transformClaim1 (env : JobEnv) (now : ℚ) (docId : Nat) (baseKind : String)
    (toc : Bool) (st : St) :
    (transform_tex_task env now docId baseKind toc st).nCompile ≤ 2 ∧
    (transform_tex_task env now docId baseKind toc st).nLlm ≤ 2 ∧
    (∀ (d0 doc : DocR) (st2 : St) (payload : List Char) (isTex : Bool)
        (texRaw diag : List Char),
      getDoc st docId = some d0 →
      getDoc (markProcessing now docId st) docId = some doc →
      payloadStep env docId baseKind (markProcessing now docId st) doc =
        Except.ok (st2, payload, isTex) →
      env.llm 0 (env.buildUserPrompt payload isTex) = Except.ok texRaw →
      env.compile 0 = some diag →
      (diag <:+: repairUserPrompt diag (env.make_full_tex (env.extract_body texRaw) toc)) ∧
      ((env.make_full_tex (env.extract_body texRaw) toc) <:+:
        repairUserPrompt diag (env.make_full_tex (env.extract_body texRaw) toc)) ∧
      (∀ texFixed, env.llm 1 (repairUserPrompt diag
          (env.make_full_tex (env.extract_body texRaw) toc)) = Except.ok texFixed →
        (transform_tex_task env now docId baseKind toc st).nCompile = 2 ∧
        (transform_tex_task env now docId baseKind toc st).nLlm = 2 ∧
        (∀ diag2, env.compile 1 = some diag2 →
          (transform_tex_task env now docId baseKind toc st).outcome =
            Except.error diag2 ∧
          (getDoc (transform_tex_task env now docId baseKind toc st).st docId).map
            DocR.status = some "error" ∧
          (getDoc (transform_tex_task env now docId baseKind toc st).st docId).map
            DocR.last_error = some (some diag2))) ∧
      (∀ e2, env.llm 1 (repairUserPrompt diag
          (env.make_full_tex (env.extract_body texRaw) toc)) = Except.error e2 →
        (transform_tex_task env now docId baseKind toc st).nCompile = 1)) := by
  refine ⟨(transform_counts_le env now docId baseKind toc st).1,
    (transform_counts_le env now docId baseKind toc st).2, ?_⟩
  intro d0 doc st2 payload isTex texRaw diag h0 h1 h2 h3 h4
  have heq : transform_tex_task env now docId baseKind toc st =
      transformRepair env now docId toc st2
        (env.make_full_tex (env.extract_body texRaw) toc) diag := by
    rw [transform_eq_select env now docId baseKind toc st d0 doc h0 h1,
      transformSelect_ok env now docId baseKind toc _ doc st2 payload isTex h2,
      transformLlm_ok env now docId toc st2 payload isTex texRaw h3,
      transformCompile_fail env now docId toc st2 _ diag h4]
  have hd2 : ∃ d2, getDoc st2 docId = some d2 := by
    rcases payloadStep_cases env docId baseKind (markProcessing now docId st) doc st2
        payload isTex h2 with h | ⟨t, h⟩
    · exact ⟨doc, h ▸ h1⟩
    · refine ⟨{ doc with extracted_text := some t }, ?_⟩
      rw [h]
      show getDoc (setDoc (markProcessing now docId st) docId
        (fun d => { d with extracted_text := some t })) docId = _
      exact getDoc_setDoc (markProcessing now docId st) docId _ doc h1 (fun x => rfl)
  refine ⟨?_, ?_, ?_, ?_⟩
  · exact ⟨"ОШИБКА КОМПИЛЯЦИИ:\n".toList,
      "\n\nТЕКУЩИЙ LaTeX:\n<<<\n".toList ++
        env.make_full_tex (env.extract_body texRaw) toc ++ "\n>>>\n".toList,
      by simp [repairUserPrompt]⟩
  · exact ⟨"ОШИБКА КОМПИЛЯЦИИ:\n".toList ++ diag ++ "\n\nТЕКУЩИЙ LaTeX:\n<<<\n".toList,
      "\n>>>\n".toList, by simp [repairUserPrompt]⟩
  · intro texFixed h5
    cases h6 : env.compile 1 with
    | none =>
      rw [heq, transformRepair_ok env now docId toc st2 _ diag texFixed h5 h6]
      refine ⟨rfl, rfl, ?_⟩
      intro diag2 h6'
      simp at h6'
    | some diag2 =>
      rw [heq, transformRepair_fail2 env now docId toc st2 _ diag texFixed diag2 h5 h6]
      refine ⟨rfl, rfl, ?_⟩
      intro diag2' h6'
      have hdd : diag2 = diag2' := Option.some.inj h6'
      subst hdd
      rcases hd2 with ⟨d2, hd2⟩
      refine ⟨rfl, ?_, ?_⟩
      · show Option.map DocR.status (getDoc (failDoc now docId diag2 st2) docId) =
          some "error"
        rw [failDoc_getDoc now docId diag2 st2 d2 hd2]
        rfl
      · show Option.map DocR.last_error (getDoc (failDoc now docId diag2 st2) docId) =
          some (some diag2)
        rw [failDoc_getDoc now docId diag2 st2 d2 hd2]
        rfl
  · intro e2 h5
    rw [heq, transformRepair_llmErr env now docId toc st2 _ diag e2 h5]

/-- Example job environment used by concrete witnesses: the LLM always
answers, both compilations fail with diagnostic d, extraction yields t. -/
def exEnv1 : JobEnv :=
  ⟨fun n p => Except.ok ['x'], fun n => some ['d'], Except.ok ['t'],
    fun x => x, fun b t => b, fun x => x, fun p b => p, fun x => x⟩

/-- Example state for the job witnesses: one document with cached
extracted text and an open, fresh editing session. -/
def exSt1 : St :=
  ⟨[⟨1, "ready", none, some ['t'], true, some 0, 0⟩], [], [], [], 0, 0⟩

/-- Witness for C1 at the concrete environment exEnv1 and state exSt1. -/
theorem transformClaim1_witness :
    (transform_tex_task exEnv1 0 1 "original" false exSt1).nCompile ≤ 2 ∧
    (transform_tex_task exEnv1 0 1 "original" false exSt1).nLlm ≤ 2 ∧
    (∀ (d0 doc : DocR) (st2 : St) (payload : List Char) (isTex : Bool)
        (texRaw diag : List Char),
      getDoc exSt1 1 = some d0 →
      getDoc (markProcessing 0 1 exSt1) 1 = some doc →
      payloadStep exEnv1 1 "original" (markProcessing 0 1 exSt1) doc =
        Except.ok (st2, payload, isTex) →
      exEnv1.llm 0 (exEnv1.buildUserPrompt payload isTex) = Except.ok texRaw →
      exEnv1.compile 0 = some diag →
      (diag <:+: repairUserPrompt diag
        (exEnv1.make_full_tex (exEnv1.extract_body texRaw) false)) ∧
      ((exEnv1.make_full_tex (exEnv1.extract_body texRaw) false) <:+:
        repairUserPrompt diag (exEnv1.make_full_tex (exEnv1.extract_body texRaw) false)) ∧
      (∀ texFixed, exEnv1.llm 1 (repairUserPrompt diag
          (exEnv1.make_full_tex (exEnv1.extract_body texRaw) false)) = Except.ok texFixed →
        (transform_tex_task exEnv1 0 1 "original" false exSt1).nCompile = 2 ∧
        (transform_tex_task exEnv1 0 1 "original" false exSt1).nLlm = 2 ∧
        (∀ diag2, exEnv1.compile 1 = some diag2 →
          (transform_tex_task exEnv1 0 1 "original" false exSt1).outcome =
            Except.error diag2 ∧
          (getDoc (transform_tex_task exEnv1 0 1 "original" false exSt1).st 1).map
            DocR.status = some "error" ∧
          (getDoc (transform_tex_task exEnv1 0 1 "original" false exSt1).st 1).map
            DocR.last_error = some (some diag2))) ∧
      (∀ e2, exEnv1.llm 1 (repairUserPrompt diag
          (exEnv1.make_full_tex (exEnv1.extract_body texRaw) false)) = Except.error e2 →
        (transform_tex_task exEnv1 0 1 "original" false exSt1).nCompile = 1)) :=
  transformClaim1 exEnv1 0 1 "original" false exSt1

/-- C3: when a transform job reaches the persistence step while the
editor is not active, it writes no Version row (the versions table is
unchanged — no draft created or altered), touches no search-index
chunk, sets the document's status back to ready and returns without
error: the computed result is discarded. -/
theorem transformClaim3 (env : JobEnv) (now : ℚ) (docId : Nat) (baseKind : String)
    (toc : Bool) (st : St) (doc : DocR) (st2 : St) (payload : List Char) (isTex : Bool)
    (texRaw : List Char)
    (hd : getDoc st docId = some doc)
    (hia : editorActive now doc = false)
    (hpay : payloadStep env docId baseKind (markProcessing now docId st)
      { doc with status := "processing", last_error := none, updated_at := now } =
      Except.ok (st2, payload, isTex))
    (hllm : env.llm 0 (env.buildUserPrompt payload isTex) = Except.ok texRaw)
    (hreach : env.compile 0 = none ∨
      (∃ diag texFixed, env.compile 0 = some diag ∧
        env.llm 1 (repairUserPrompt diag
          (env.make_full_tex (env.extract_body texRaw) toc)) = Except.ok texFixed ∧
        env.compile 1 = none)) :
    (transform_tex_task env now docId baseKind toc st).outcome = Except.ok () ∧
    (transform_tex_task env now docId baseKind toc st).st.versions = st.versions ∧
    (transform_tex_task env now docId baseKind toc st).st.chunks = st.chunks ∧
    (getDoc (transform_tex_task env now docId baseKind toc st).st docId).map
      DocR.status = some "ready" := by
  have h1 : getDoc (markProcessing now docId st) docId =
      some { doc with status := "processing", last_error := none, updated_at := now } :=
    getDoc_setDoc st docId _ doc hd (fun x => rfl)
  have key : ∃ d2, getDoc st2 docId = some d2 ∧ d2.editor_open = doc.editor_open ∧
      d2.editor_heartbeat_at = doc.editor_heartbeat_at ∧
      st2.versions = st.versions ∧ st2.chunks = st.chunks := by
    rcases payloadStep_cases env docId baseKind (markProcessing now docId st)
        { doc with status := "processing", last_error := none, updated_at := now }
        st2 payload isTex hpay with h | ⟨t, h⟩
    · subst h
      exact ⟨_, h1, rfl, rfl, rfl, rfl⟩
    · subst h
      refine ⟨{ doc with
        status := "processing"
        last_error := none
        updated_at := now
        extracted_text := some t }, ?_, rfl, rfl, rfl, rfl⟩
      show getDoc (setDoc (markProcessing now docId st) docId
        (fun d => { d with extracted_text := some t })) docId = _
      exact getDoc_setDoc (markProcessing now docId st) docId
        (fun d => { d with extracted_text := some t }) _ h1 (fun x => rfl)
  rcases key with ⟨d2, hd2, hopen, hhb, hver, hch⟩
  have hia2 : editorActive now d2 = false := by
    rw [editorActive_fields now d2 doc hopen hhb]
    exact hia
  have hd3 : getDoc (writeFile st2 (genPath docId "draft")) docId = some d2 := hd2
  have hready : ∀ fullTex,
      persistDraft env now docId (genPath docId "draft") fullTex
        (writeFile st2 (genPath docId "draft")) =
      setDoc (writeFile st2 (genPath docId "draft")) docId
        (fun x => { x with status := "ready", updated_at := now }) := fun fullTex =>
    persistDraft_inactive env now docId (genPath docId "draft") fullTex
      (writeFile st2 (genPath docId "draft")) d2 hd3 hia2
  have hstat : (getDoc (setDoc (writeFile st2 (genPath docId "draft")) docId
      (fun x => { x with status := "ready", updated_at := now })) docId).map
      DocR.status = some "ready" := by
    rw [getDoc_setDoc (writeFile st2 (genPath docId "draft")) docId
      (fun x => { x with status := "ready", updated_at := now }) d2 hd3 (fun x => rfl)]
    rfl
  rcases hreach with h4 | ⟨diag, texFixed, h4, h5, h6⟩
  · have heq : transform_tex_task env now docId baseKind toc st =
        ⟨persistDraft env now docId (genPath docId "draft")
          (env.make_full_tex (env.extract_body texRaw) toc)
          (writeFile st2 (genPath docId "draft")), Except.ok (), 1, 1⟩ := by
      rw [transform_eq_select env now docId baseKind toc st doc _ hd h1,
        transformSelect_ok env now docId baseKind toc _ _ st2 payload isTex hpay,
        transformLlm_ok env now docId toc st2 payload isTex texRaw hllm,
        transformCompile_ok env now docId toc st2 _ h4]
    rw [heq, hready _]
    exact ⟨rfl, hver, hch, hstat⟩
  · have heq : transform_tex_task env now docId baseKind toc st =
        ⟨persistDraft env now docId (genPath docId "draft")
          (env.make_full_tex (env.extract_body texFixed) toc)
          (writeFile st2 (genPath docId "draft")), Except.ok (), 2, 2⟩ := by
      rw [transform_eq_select env now docId baseKind toc st doc _ hd h1,
        transformSelect_ok env now docId baseKind toc _ _ st2 payload isTex hpay,
        transformLlm_ok env now docId toc st2 payload isTex texRaw hllm,
        transformCompile_fail env now docId toc st2 _ diag h4,
        transformRepair_ok env now docId toc st2 _ diag texFixed h5 h6]
    rw [heq, hready _]
    exact ⟨rfl, hver, hch, hstat⟩

/-- Example document whose editing session is closed. -/
def exDoc3 : DocR := ⟨1, "ready", none, some ['t'], false, none, 0⟩

/-- Example environment where the LLM answers and compilation
succeeds. -/
def exEnv3 : JobEnv :=
  ⟨fun n p => Except.ok ['x'], fun n => none, Except.ok ['t'],
    fun x => x, fun b t => b, fun x => x, fun p b => p, fun x => x⟩

/-- Example state for the C3 witness: one document, closed editor. -/
def exSt3 : St := ⟨[exDoc3], [], [], [], 0, 0⟩

/-- Witness for C3: a successful transform run whose result is
discarded because the editor is closed. -/
theorem transformClaim3_witness :
    getDoc exSt3 1 = some exDoc3 ∧
    editorActive 0 exDoc3 = false ∧
    payloadStep exEnv3 1 "original" (markProcessing 0 1 exSt3)
      ⟨1, "processing", none, some ['t'], false, none, 0⟩ =
      Except.ok (markProcessing 0 1 exSt3, ['t'], false) ∧
    exEnv3.llm 0 (exEnv3.buildUserPrompt ['t'] false) = Except.ok ['x'] ∧
    exEnv3.compile 0 = none ∧
    ((transform_tex_task exEnv3 0 1 "original" false exSt3).outcome = Except.ok () ∧
    (transform_tex_task exEnv3 0 1 "original" false exSt3).st.versions = exSt3.versions ∧
    (transform_tex_task exEnv3 0 1 "original" false exSt3).st.chunks = exSt3.chunks ∧
    (getDoc (transform_tex_task exEnv3 0 1 "original" false exSt3).st 1).map
      DocR.status = some "ready") :=
  ⟨by decide, by decide, by decide, by decide, by decide,
    transformClaim3 exEnv3 0 1 "original" false exSt3 exDoc3 (markProcessing 0 1 exSt3)
      ['t'] false ['x'] (by decide) (by decide) (by decide) (by decide)
      (Or.inl (by decide))⟩

theorem process_eq_error (env : JobEnv) (now : ℚ) (docId : Nat) (st : St)
    (d0 doc : DocR) (e : List Char)
    (h0 : getDoc st docId = some d0)
    (h1 : getDoc (markProcessing now docId st) docId = some doc)
    (hex : env.extract = Except.error e) :
    process_pdf_task env now docId st =
      ⟨failDoc now docId e (markProcessing now docId st), Except.ok (), 0, 0⟩ := by
  simp only [process_pdf_task]
  rw [h0, h1, hex]

theorem normalize_eq_body (env : JobEnv) (now : ℚ) (docId : Nat) (st : St)
    (d0 doc : DocR)
    (h0 : getDoc st docId = some d0)
    (h1 : getDoc (markProcessing now docId st) docId = some doc) :
    normalize_original_task env now docId st =
      normalizeBody env now docId (markProcessing now docId st) doc := by
  unfold normalize_original_task
  rw [h0, h1]

theorem normalizeBody_extract_error (env : JobEnv) (now : ℚ) (docId : Nat) (st1 : St)
    (doc : DocR) (e : List Char)
    (hia : editorActive now doc = true)
    (hc : pyStrip (doc.extracted_text.getD []) = [])
    (hex : env.extract = Except.error e) :
    normalizeBody env now docId st1 doc =
      ⟨failDoc now docId (e.take 2000) st1, Except.error e, 0, 0⟩ := by
  unfold normalizeBody
  rw [hia, if_neg (fun hn => hn rfl), if_pos hc, hex]

theorem payloadStep_original_error (env : JobEnv) (docId : Nat) (st : St) (doc : DocR)
    (e : List Char)
    (hc : doc.extracted_text.getD [] = [])
    (hex : env.extract = Except.error e) :
    payloadStep env docId "original" st doc = Except.error e := by
  unfold payloadStep
  rw [if_pos rfl, if_pos hc, hex]

/-- C5 (amended): every job records status=error on the document when
its body raises, but the three handlers differ from the claim:
process_pdf_task stores the full untruncated message and returns
normally without re-raising; transform_tex_task re-raises but also
stores the full untruncated message; only normalize_original_task
truncates the stored message (to 2000 characters) before re-raising. -/
theorem transformClaim5 :
    (∀ (env : JobEnv) (now : ℚ) (docId : Nat) (st : St) (doc : DocR) (e : List Char),
      getDoc st docId = some doc → env.extract = Except.error e →
      (process_pdf_task env now docId st).outcome = Except.ok () ∧
      (getDoc (process_pdf_task env now docId st).st docId).map DocR.status =
        some "error" ∧
      (getDoc (process_pdf_task env now docId st).st docId).map DocR.last_error =
        some (some e)) ∧
    (∀ (env : JobEnv) (now : ℚ) (docId : Nat) (toc : Bool) (st : St) (doc : DocR)
        (e : List Char),
      getDoc st docId = some doc → doc.extracted_text.getD [] = [] →
      env.extract = Except.error e →
      (transform_tex_task env now docId "original" toc st).outcome = Except.error e ∧
      (getDoc (transform_tex_task env now docId "original" toc st).st docId).map
        DocR.status = some "error" ∧
      (getDoc (transform_tex_task env now docId "original" toc st).st docId).map
        DocR.last_error = some (some e)) ∧
    (∀ (env : JobEnv) (now : ℚ) (docId : Nat) (st : St) (doc : DocR) (e : List Char),
      getDoc st docId = some doc → editorActive now doc = true →
      pyStrip (doc.extracted_text.getD []) = [] → env.extract = Except.error e →
      (normalize_original_task env now docId st).outcome = Except.error e ∧
      (getDoc (normalize_original_task env now docId st).st docId).map DocR.status =
        some "error" ∧
      (getDoc (normalize_original_task env now docId st).st docId).map DocR.last_error =
        some (some (e.take 2000))) := by
  refine ⟨?_, ?_, ?_⟩
  · intro env now docId st doc e hd hex
    have h1 : getDoc (markProcessing now docId st) docId =
        some { doc with status := "processing", last_error := none, updated_at := now } :=
      getDoc_setDoc st docId _ doc hd (fun x => rfl)
    rw [process_eq_error env now docId st doc _ e hd h1 hex]
    refine ⟨rfl, ?_, ?_⟩
    · show Option.map DocR.status
        (getDoc (failDoc now docId e (markProcessing now docId st)) docId) = some "error"
      rw [failDoc_getDoc now docId e (markProcessing now docId st) _ h1]
      rfl
    · show Option.map DocR.last_error
        (getDoc (failDoc now docId e (markProcessing now docId st)) docId) = some (some e)
      rw [failDoc_getDoc now docId e (markProcessing now docId st) _ h1]
      rfl
  · intro env now docId toc st doc e hd hcache hex
    have h1 : getDoc (markProcessing now docId st) docId =
        some { doc with status := "processing", last_error := none, updated_at := now } :=
      getDoc_setDoc st docId _ doc hd (fun x => rfl)
    have hpay : payloadStep env docId "original" (markProcessing now docId st)
        { doc with status := "processing", last_error := none, updated_at := now } =
        Except.error e :=
      payloadStep_original_error env docId (markProcessing now docId st) _ e hcache hex
    rw [transform_eq_select env now docId "original" toc st doc _ hd h1,
      transformSelect_err env now docId "original" toc _ _ e hpay]
    refine ⟨rfl, ?_, ?_⟩
    · show Option.map DocR.status
        (getDoc (failDoc now docId e (markProcessing now docId st)) docId) = some "error"
      rw [failDoc_getDoc now docId e (markProcessing now docId st) _ h1]
      rfl
    · show Option.map DocR.last_error
        (getDoc (failDoc now docId e (markProcessing now docId st)) docId) = some (some e)
      rw [failDoc_getDoc now docId e (markProcessing now docId st) _ h1]
      rfl
  · intro env now docId st doc e hd hact hcache hex
    have h1 : getDoc (markProcessing now docId st) docId =
        some { doc with status := "processing", last_error := none, updated_at := now } :=
      getDoc_setDoc st docId _ doc hd (fun x => rfl)
    have hact2 : editorActive now
        { doc with status := "processing", last_error := none, updated_at := now } = true := by
      have hcongr := editorActive_fields now
        { doc with status := "processing", last_error := none, updated_at := now } doc rfl rfl
      rw [hcongr]
      exact hact
    rw [normalize_eq_body env now docId st doc _ hd h1,
      normalizeBody_extract_error env now docId (markProcessing now docId st) _ e hact2
        hcache hex]
    refine ⟨rfl, ?_, ?_⟩
    · show Option.map DocR.status
        (getDoc (failDoc now docId (e.take 2000) (markProcessing now docId st)) docId) =
        some "error"
      rw [failDoc_getDoc now docId (e.take 2000) (markProcessing now docId st) _ h1]
      rfl
    · show Option.map DocR.last_error
        (getDoc (failDoc now docId (e.take 2000) (markProcessing now docId st)) docId) =
        some (some (e.take 2000))
      rw [failDoc_getDoc now docId (e.take 2000) (markProcessing now docId st) _ h1]
      rfl

/-- Environment whose text extraction raises a 2001-character error
message. -/
def exEnvB : JobEnv :=
  ⟨fun n p => Except.ok [], fun n => none, Except.error (List.replicate 2001 'x'),
    fun x => x, fun b t => b, fun x => x, fun p b => p, fun x => x⟩

/-- Document with no cached text and a closed editor. -/
def exDocB : DocR := ⟨1, "ready", none, none, false, none, 0⟩

/-- Document with no cached text and an open, fresh editing session. -/
def exDocB2 : DocR := ⟨1, "ready", none, none, true, some 0, 0⟩

/-- State for the C5 counterexample and witness (process / transform
parts). -/
def exStB : St := ⟨[exDocB], [], [], [], 0, 0⟩

/-- State for the C5 witness (normalize part). -/
def exStB2 : St := ⟨[exDocB2], [], [], [], 0, 0⟩

/-- C5 counterexample: when extraction raises a 2001-character message
inside process_pdf_task, the job returns normally (outcome ok, so
nothing is re-raised and the failure is invisible to the job queue)
and the stored last_error is the full 2001-character message, longer
than the 2000-character truncation the claim requires. -/
theorem transformClaim5_counterexample :
    (process_pdf_task exEnvB 0 1 exStB).outcome = Except.ok () ∧
    (getDoc (process_pdf_task exEnvB 0 1 exStB).st 1).map DocR.status = some "error" ∧
    (getDoc (process_pdf_task exEnvB 0 1 exStB).st 1).map DocR.last_error =
      some (some (List.replicate 2001 'x')) ∧
    2000 < (List.replicate 2001 'x').length := by
  refine ⟨rfl, rfl, rfl, ?_⟩
  rw [List.length_replicate]
  norm_num

/-- Witness for C5: the amended statement's three parts at concrete
environments and states. -/
theorem transformClaim5_witness :
    ((process_pdf_task exEnvB 0 1 exStB).outcome = Except.ok () ∧
      (getDoc (process_pdf_task exEnvB 0 1 exStB).st 1).map DocR.status = some "error" ∧
      (getDoc (process_pdf_task exEnvB 0 1 exStB).st 1).map DocR.last_error =
        some (some (List.replicate 2001 'x'))) ∧
    ((transform_tex_task exEnvB 0 1 "original" false exStB).outcome =
        Except.error (List.replicate 2001 'x') ∧
      (getDoc (transform_tex_task exEnvB 0 1 "original" false exStB).st 1).map
        DocR.status = some "error" ∧
      (getDoc (transform_tex_task exEnvB 0 1 "original" false exStB).st 1).map
        DocR.last_error = some (some (List.replicate 2001 'x'))) ∧
    ((normalize_original_task exEnvB 0 1 exStB2).outcome =
        Except.error (List.replicate 2001 'x') ∧
      (getDoc (normalize_original_task exEnvB 0 1 exStB2).st 1).map DocR.status =
        some "error" ∧
      (getDoc (normalize_original_task exEnvB 0 1 exStB2).st 1).map DocR.last_error =
        some (some ((List.replicate 2001 'x').take 2000))) :=
  ⟨transformClaim5.1 exEnvB 0 1 exStB exDocB (List.replicate 2001 'x') (by decide) rfl,
    transformClaim5.2.1 exEnvB 0 1 false exStB exDocB (List.replicate 2001 'x')
      (by decide) (by decide) rfl,
    transformClaim5.2.2 exEnvB 0 1 exStB2 exDocB2 (List.replicate 2001 'x')
      (by decide) (by simp [editorActive, exDocB2]) (by decide) rfl⟩
